import Mathlib

set_option maxRecDepth 100000
set_option maxHeartbeats 2000000

/-!
# cal-sync Synchronization Engine — verification development

Shallow embedding of `backend/app/core/sync_engine.py` and
`backend/app/core/scheduler.py`, with theorems settling the spec's claims.

Modelling conventions:
* Python dicts fetched from / sent to the Google Calendar API are embedded as
  structures whose `Option` fields mean "key present with this value /
  key absent".  Under Python's `dict.get` semantics (used throughout the
  source), an absent key and a key stored as `None` are indistinguishable,
  and the payload builder strips `None` values before returning, so this
  identification is faithful.
* Opaque values the engine never inspects (the `start`/`end` time dicts, the
  recurrence list, the attendee list) are embedded as opaque `String`s.
* Python truthiness tests on `Optional[str]` values (`if sync_cluster_id:`)
  are embedded by `truthy`, which is false exactly on `None` and `""`.
* `datetime` values that the engine only ever compares with `>` (the
  `updated` timestamps) are embedded as `Nat`; ISO parsing/normalising to
  UTC-aware datetimes is order-preserving and therefore dropped.
* `uuid.uuid4()` and `datetime.now()` draw from the environment; they are
  embedded as explicit inputs (`nextUuid` counter, `now : Nat`).
-/

/-- Python truthiness of an `Optional[str]`: `None` and `""` are falsy. -/
def truthy : Option String → Bool
  | none => false
  | some s => decide (s ≠ "")

/-- The value of a `reminders` dict on an event.  The engine only ever writes
`{"useDefault": False}` and compares reminders dicts for equality, so the
embedding keeps the `useDefault` flag and an opaque stand-in for the
`overrides` list. -/
structure Reminders where
  useDefault : Bool
  overrides : Option String
deriving DecidableEq

/-- The `extendedProperties.shared` metadata bag of an event, restricted to
the keys the engine reads or writes.  An absent bag is the all-`none`
record (Python's `event.get("extendedProperties", {}).get("shared", {})`). -/
structure SharedProps where
  source_id : Option String := none
  synced_by_system : Option String := none
  sync_cluster_id : Option String := none
  last_sync_timestamp : Option String := none
  dest_event_id : Option String := none
  origin_calendar_id : Option String := none
  origin_event_id : Option String := none
  sync_config_id : Option String := none
  privacy_mode : Option String := none
deriving DecidableEq

/-- A Google Calendar event dict, as fetched from either side.
`start`, `end`, `recurrence` and `attendees` are opaque values the engine
copies or compares but never inspects. -/
structure GEvent where
  id : Option String := none
  status : Option String := none
  summary : Option String := none
  description : Option String := none
  location : Option String := none
  start : Option String := none
  end_ : Option String := none
  recurrence : Option String := none
  transparency : Option String := none
  visibility : Option String := none
  colorId : Option String := none
  reminders : Option Reminders := none
  attendees : Option String := none
  updated : Option Nat := none
  shared : SharedProps := {}
deriving DecidableEq

/-- The outbound event payload produced by `build_payload_from_source`
(after the final `None`-stripping comprehension: an absent key is `none`). -/
structure Payload where
  summary : Option String := none
  description : Option String := none
  location : Option String := none
  start : Option String := none
  end_ : Option String := none
  recurrence : Option String := none
  transparency : Option String := none
  visibility : Option String := none
  colorId : Option String := none
  reminders : Option Reminders := none
  attendees : Option String := none
  shared : SharedProps := {}
deriving DecidableEq

/-- `iso_utc` (sync_engine.py:13-15): second-precision ISO rendering of a
timestamp.  Timestamps are embedded as `Nat`, so the rendering is an
injective tagging of the value. -/
def iso_utc (dt : Nat) : String := "ts:" ++ toString dt ++ "Z"

/-- `build_payload_from_source` (sync_engine.py:42-98).  `now` stands for
`datetime.datetime.now(datetime.timezone.utc)` observed during the call. -/
def build_payload_from_source
    (src : GEvent)
    (sync_cluster_id : Option String)
    (dest_event_id : Option String)
    (destination_color_id : Option String)
    (origin_calendar_id : Option String)
    (sync_config_id : Option String)
    (privacy_mode_enabled : Bool)
    (privacy_placeholder_text : String)
    (now : Nat) : Payload :=
  let ep0 : SharedProps :=
    { source_id := src.id
      synced_by_system := some "true" }
  let ep1 : SharedProps :=
    if truthy sync_cluster_id then
      { ep0 with
          sync_cluster_id := sync_cluster_id
          last_sync_timestamp := some (iso_utc now)
          dest_event_id := if truthy dest_event_id then dest_event_id else none }
    else ep0
  let ep2 : SharedProps :=
    if truthy origin_calendar_id then
      { ep1 with
          origin_calendar_id := origin_calendar_id
          origin_event_id := src.id }
    else ep1
  let ep3 : SharedProps :=
    if truthy sync_config_id then { ep2 with sync_config_id := sync_config_id } else ep2
  let ep4 : SharedProps :=
    if privacy_mode_enabled then { ep3 with privacy_mode := some "true" } else ep3
  { summary := if privacy_mode_enabled then some privacy_placeholder_text else src.summary
    description := if privacy_mode_enabled then some "" else src.description
    location := if privacy_mode_enabled then some "" else src.location
    start := src.start
    end_ := src.end_
    recurrence := src.recurrence
    transparency := src.transparency
    visibility := src.visibility
    colorId := if truthy destination_color_id then destination_color_id else src.colorId
    reminders := some { useDefault := false, overrides := none }
    attendees := none
    shared := ep4 }

/-- `events_differ` (sync_engine.py:101-118): true when any of the ten
comparable keys differs between the candidate payload and the existing
destination event. -/
def events_differ (src_body : Payload) (dest_event : GEvent) : Bool :=
  decide (src_body.summary ≠ dest_event.summary) ||
  decide (src_body.description ≠ dest_event.description) ||
  decide (src_body.location ≠ dest_event.location) ||
  decide (src_body.start ≠ dest_event.start) ||
  decide (src_body.end_ ≠ dest_event.end_) ||
  decide (src_body.recurrence ≠ dest_event.recurrence) ||
  decide (src_body.transparency ≠ dest_event.transparency) ||
  decide (src_body.visibility ≠ dest_event.visibility) ||
  decide (src_body.colorId ≠ dest_event.colorId) ||
  decide (src_body.reminders ≠ dest_event.reminders)

/-- `SyncEngine.should_skip_event` (sync_engine.py:144-157).  The
`sync_config_id` argument is accepted and unread, as in the source. -/
def should_skip_event (event : GEvent) (sync_config_id : String) : Bool × String :=
  if event.shared.synced_by_system = some "true" then (true, "synced_by_system")
  else (false, "")

/-- The persistent `EventMapping` row (models/event_mapping.py), restricted to
the columns the engine reads or writes.  `origin_calendar_id` is nullable in
the schema. -/
structure EventMapping where
  sync_config_id : String
  source_event_id : String
  dest_event_id : String
  sync_cluster_id : String
  content_hash : String
  last_synced_at : Option Nat
  source_last_modified : Option Nat
  dest_last_modified : Option Nat
  origin_calendar_id : Option String
  is_privacy_mode : Bool
deriving DecidableEq

/-- `SyncEngine.get_origin_calendar_id` (sync_engine.py:159-181): prefer the
mapping's stored origin, else the event's metadata-carried origin, else the
source calendar. -/
def get_origin_calendar_id (event : GEvent) (mapping : Option EventMapping)
    (source_calendar_id : String) : String :=
  match mapping with
  | some m =>
    if truthy m.origin_calendar_id then m.origin_calendar_id.getD ""
    else if truthy event.shared.origin_calendar_id then event.shared.origin_calendar_id.getD ""
    else source_calendar_id
  | none =>
    if truthy event.shared.origin_calendar_id then event.shared.origin_calendar_id.getD ""
    else source_calendar_id

/-- `SyncEngine.resolve_conflict` (sync_engine.py:183-203): origin-wins,
decided by the mapping's stored `origin_calendar_id` alone (a `None` stored
origin compares unequal to any calendar id, as in Python). -/
def resolve_conflict (source_event dest_event : GEvent) (mapping : EventMapping)
    (source_calendar_id : String) : String :=
  if mapping.origin_calendar_id = some source_calendar_id then "source_wins"
  else "dest_wins"

/-!
## SHA-256 (hashlib.sha256, as called by `compute_content_hash`)

A complete executable SHA-256 over `Nat` words (all 32-bit arithmetic is
explicit `% 2^32`), with UTF-8 byte encoding of the input string, matching
Python's `hashlib.sha256(content.encode()).hexdigest()`.
-/

namespace SHA256

def w32 : Nat := 4294967296

def rotr (n x : Nat) : Nat := ((x >>> n) ||| (x <<< (32 - n))) % w32

def bnot32 (x : Nat) : Nat := Nat.xor x (w32 - 1)

def bsig0 (x : Nat) : Nat := Nat.xor (Nat.xor (rotr 2 x) (rotr 13 x)) (rotr 22 x)
def bsig1 (x : Nat) : Nat := Nat.xor (Nat.xor (rotr 6 x) (rotr 11 x)) (rotr 25 x)
def ssig0 (x : Nat) : Nat := Nat.xor (Nat.xor (rotr 7 x) (rotr 18 x)) (x >>> 3)
def ssig1 (x : Nat) : Nat := Nat.xor (Nat.xor (rotr 17 x) (rotr 19 x)) (x >>> 10)
def ch (x y z : Nat) : Nat := Nat.xor (x &&& y) ((bnot32 x) &&& z)
def maj (x y z : Nat) : Nat := Nat.xor (Nat.xor (x &&& y) (x &&& z)) (y &&& z)

def K : List Nat :=
  [1116352408, 1899447441, 3049323471, 3921009573, 961987163, 1508970993,
   2453635748, 2870763221, 3624381080, 310598401, 607225278, 1426881987,
   1925078388, 2162078206, 2614888103, 3248222580, 3835390401, 4022224774,
   264347078, 604807628, 770255983, 1249150122, 1555081692, 1996064986,
   2554220882, 2821834349, 2952996808, 3210313671, 3336571891, 3584528711,
   113926993, 338241895, 666307205, 773529912, 1294757372, 1396182291,
   1695183700, 1986661051, 2177026350, 2456956037, 2730485921, 2820302411,
   3259730800, 3345764771, 3516065817, 3600352804, 4094571909, 275423344,
   430227734, 506948616, 659060556, 883997877, 958139571, 1322822218,
   1537002063, 1747873779, 1955562222, 2024104815, 2227730452, 2361852424,
   2428436474, 2756734187, 3204031479, 3329325298]

def H0 : List Nat :=
  [1779033703, 3144134277, 1013904242, 2773480762, 1359893119, 2600822924,
   528734635, 1541459225]

def lenBytes (bits : Nat) : List Nat :=
  [(bits >>> 56) % 256, (bits >>> 48) % 256, (bits >>> 40) % 256, (bits >>> 32) % 256,
   (bits >>> 24) % 256, (bits >>> 16) % 256, (bits >>> 8) % 256, bits % 256]

def padMessage (msg : List Nat) : List Nat :=
  let L := msg.length
  let k := (119 - (L % 64)) % 64
  msg ++ [128] ++ List.replicate k 0 ++ lenBytes (L * 8)

def bytesToWords : List Nat → List Nat
  | a :: b :: c :: d :: rest => (((a * 256 + b) * 256 + c) * 256 + d) :: bytesToWords rest
  | _ => []

def scheduleStep (ws : List Nat) : List Nat :=
  let n := ws.length
  let w := (ssig1 (ws.getD (n - 2) 0) + ws.getD (n - 7) 0 +
            ssig0 (ws.getD (n - 15) 0) + ws.getD (n - 16) 0) % w32
  ws ++ [w]

def schedule (ws : List Nat) : List Nat :=
  (List.range 48).foldl (fun acc _ => scheduleStep acc) ws

structure Regs where
  a : Nat
  b : Nat
  c : Nat
  d : Nat
  e : Nat
  f : Nat
  g : Nat
  h : Nat

def roundStep (st : Regs) (kw : Nat × Nat) : Regs :=
  let t1 := (st.h + bsig1 st.e + ch st.e st.f st.g + kw.1 + kw.2) % w32
  let t2 := (bsig0 st.a + maj st.a st.b st.c) % w32
  { a := (t1 + t2) % w32, b := st.a, c := st.b, d := st.c,
    e := (st.d + t1) % w32, f := st.e, g := st.f, h := st.g }

def compress (h : List Nat) (block : List Nat) : List Nat :=
  let ws := schedule (bytesToWords block)
  let r0 : Regs := { a := h.getD 0 0, b := h.getD 1 0, c := h.getD 2 0, d := h.getD 3 0,
                     e := h.getD 4 0, f := h.getD 5 0, g := h.getD 6 0, h := h.getD 7 0 }
  let r := (K.zip ws).foldl roundStep r0
  [(h.getD 0 0 + r.a) % w32, (h.getD 1 0 + r.b) % w32, (h.getD 2 0 + r.c) % w32,
   (h.getD 3 0 + r.d) % w32, (h.getD 4 0 + r.e) % w32, (h.getD 5 0 + r.f) % w32,
   (h.getD 6 0 + r.g) % w32, (h.getD 7 0 + r.h) % w32]

def toBlocksAux : Nat → List Nat → List (List Nat)
  | _, [] => []
  | 0, _ => []
  | fuel + 1, b :: bs => (b :: bs.take 63) :: toBlocksAux fuel (bs.drop 63)

def processBlocks (h : List Nat) (bytes : List Nat) : List Nat :=
  (toBlocksAux bytes.length bytes).foldl compress h

def hexDigit (n : Nat) : Char := if n < 10 then Char.ofNat (48 + n) else Char.ofNat (87 + n)

def toHex8 (n : Nat) : String :=
  String.mk ((List.range 8).map (fun i => hexDigit ((n >>> (4 * (7 - i))) % 16)))

def utf8Bytes (c : Nat) : List Nat :=
  if c < 128 then [c]
  else if c < 2048 then [192 + c / 64, 128 + c % 64]
  else if c < 65536 then [224 + c / 4096, 128 + (c / 64) % 64, 128 + c % 64]
  else [240 + c / 262144, 128 + (c / 4096) % 64, 128 + (c / 64) % 64, 128 + c % 64]

def strBytes (s : String) : List Nat :=
  s.data.foldr (fun c acc => utf8Bytes c.toNat ++ acc) []

def sha256hex (s : String) : String :=
  String.join ((processBlocks H0 (padMessage (strBytes s))).map toHex8)

end SHA256

/-- FIPS 180-4 test vector, checking the SHA-256 embedding. -/
example : SHA256.sha256hex "abc" =
    "ba7816bf8f01cfea414140de5dae2223b00361a396177a9cb410ff61f20015ad" := by decide

/-- Python `repr` of the field values appearing in the hashed dict: `None` for
an absent value, a single-quoted literal for a present (opaque) value. -/
def pyRepr : Option String → String
  | none => "None"
  | some s => "'" ++ s ++ "'"

/-- The serialization `str(sorted(comparable_fields.items()))` built by
`compute_content_hash` (sync_engine.py:121-134): the nine hashed fields in
sorted key order.  Note `reminders` is NOT among them. -/
def contentString (event : GEvent) : String :=
  "[('colorId', " ++ pyRepr event.colorId ++
  "), ('description', " ++ pyRepr event.description ++
  "), ('end', " ++ pyRepr event.end_ ++
  "), ('location', " ++ pyRepr event.location ++
  "), ('recurrence', " ++ pyRepr event.recurrence ++
  "), ('start', " ++ pyRepr event.start ++
  "), ('summary', " ++ pyRepr event.summary ++
  "), ('transparency', " ++ pyRepr event.transparency ++
  "), ('visibility', " ++ pyRepr event.visibility ++ ")]"

/-- `compute_content_hash` (sync_engine.py:121-135). -/
def compute_content_hash (event : GEvent) : String :=
  SHA256.sha256hex (contentString event)

/-!
## The Calendar Data Port and the reconciliation loop

`sync_calendars` (sync_engine.py:205-440).  The Google Calendar service is
embedded as an explicit `Remote` state: `listed` is the paginated snapshot
`fetch_events` returned for the destination side, `store` the destination
calendar as it stands when the mutating calls arrive (they can differ: the
remote may change between fetch and write, which is exactly what produces
the 404/410 "resource gone" responses the engine handles).  `failIds` and
`insertFault` inject non-404 HTTP errors, which the engine re-raises.
-/

/-- Server-assigned id of the n-th inserted event (an injective enumeration
of opaque fresh ids). -/
def genId (n : Nat) : String := "gencal:" ++ String.mk (List.replicate n 'i')

/-- `uuid.uuid4()` drawn from a counter. -/
def uuidStr (n : Nat) : String := "uuid:" ++ toString n

structure Remote where
  listed : List GEvent
  store : List GEvent
  nextId : Nat
  nextUpd : Nat
  failIds : List String
  insertFault : Option Nat
deriving DecidableEq

/-- The destination event as stored after writing payload `body` with full
(PUT) semantics: the server assigns/keeps `id`, the event is live, and a
fresh `updated` stamp is set; every payload field replaces the stored one. -/
def applyPayload (body : Payload) (id : String) (upd : Nat) : GEvent :=
  { id := some id
    status := some "confirmed"
    summary := body.summary
    description := body.description
    location := body.location
    start := body.start
    end_ := body.end_
    recurrence := body.recurrence
    transparency := body.transparency
    visibility := body.visibility
    colorId := body.colorId
    reminders := body.reminders
    attendees := body.attendees
    updated := some upd
    shared := body.shared }

/-- `events().delete(...)`: success (`none`) removes the event; an absent id
answers HTTP 404; ids in `failIds` answer a server error. -/
def deleteEvent (r : Remote) (id : String) : Option Nat × Remote :=
  if id ∈ r.failIds then (some 500, r)
  else if r.store.any (fun e => decide (e.id = some id)) then
    (none, { r with store := r.store.filter (fun e => decide (e.id ≠ some id)) })
  else (some 404, r)

/-- `events().update(...)`: replaces the stored event when present, else
HTTP 404; ids in `failIds` answer a server error. -/
def updateEvent (r : Remote) (id : String) (body : Payload) : Except Nat (GEvent × Remote) :=
  if id ∈ r.failIds then .error 500
  else if r.store.any (fun e => decide (e.id = some id)) then
    let ev := applyPayload body id r.nextUpd
    .ok (ev, { r with
                 store := r.store.map (fun e => if e.id = some id then ev else e)
                 nextUpd := r.nextUpd + 1 })
  else .error 404

/-- `events().insert(...)`: assigns a fresh id and stores the payload;
`insertFault` injects an HTTP error instead. -/
def insertEvent (r : Remote) (body : Payload) : Except Nat (GEvent × Remote) :=
  match r.insertFault with
  | some s => .error s
  | none =>
    let ev := applyPayload body (genId r.nextId) r.nextUpd
    .ok (ev, { r with
                 store := r.store ++ [ev]
                 nextId := r.nextId + 1
                 nextUpd := r.nextUpd + 1 })

/-- One `dest_map[src_key] = ev` dict assignment (replace or append). -/
def destMapInsert (m : List (String × GEvent)) (k : String) (v : GEvent) :
    List (String × GEvent) :=
  if m.any (fun q => decide (q.1 = k)) then
    m.map (fun q => if q.1 = k then (k, v) else q)
  else m ++ [(k, v)]

/-- One iteration of the destination-index loop (sync_engine.py:256-264):
skip cancelled events and events without a truthy source id. -/
def destMapStep (m : List (String × GEvent)) (ev : GEvent) : List (String × GEvent) :=
  if ev.status = some "cancelled" then m
  else if truthy ev.shared.source_id then destMapInsert m (ev.shared.source_id.getD "") ev
  else m

/-- sync_engine.py:253-264: index destination events by the metadata-carried
source id. -/
def buildDestMap (evs : List GEvent) : List (String × GEvent) :=
  evs.foldl destMapStep []

def dmLookup (m : List (String × GEvent)) (k : String) : Option GEvent :=
  (m.find? (fun q => decide (q.1 = k))).map (·.2)

/-- The per-run parameters of `sync_calendars` that the loop reads.
(`sync_direction` and `paired_config_id` are accepted by the source function
and never read in its body; they are omitted.)  `now` stands for the
`datetime.now` readings of the run. -/
structure SyncParams where
  sync_config_id : String
  source_calendar_id : String
  dest_calendar_id : String
  destination_color_id : Option String
  privacy_mode_enabled : Bool
  privacy_placeholder_text : String
  now : Nat
deriving DecidableEq

structure LoopState where
  created : Nat
  updated : Nat
  deleted : Nat
  remote : Remote
  rows : List EventMapping
  nextUuid : Nat
deriving DecidableEq

/-- A Python exception escaping the loop: a re-raised `HttpError`, or a
`KeyError` from a `[...]` access on a dict missing the key. -/
inductive SyncError where
  | http (status : Nat)
  | keyError
deriving DecidableEq

/-- The filter of `db.query(EventMapping).filter(sync_config_id == _,
source_event_id == _)`. -/
def rowKeyMatches (cfg srcId : String) (m : EventMapping) : Bool :=
  decide (m.sync_config_id = cfg) && decide (m.source_event_id = srcId)

/-- `self.db.delete(mapping)` for the row `.first()` returned. -/
def removeFirstRow (cfg srcId : String) : List EventMapping → List EventMapping
  | [] => []
  | m :: ms => if rowKeyMatches cfg srcId m then ms else m :: removeFirstRow cfg srcId ms

/-- In-place attribute assignment on the row `.first()` returned. -/
def replaceFirstRow (cfg srcId : String) (m2 : EventMapping) :
    List EventMapping → List EventMapping
  | [] => []
  | m :: ms => if rowKeyMatches cfg srcId m then m2 :: ms else m :: replaceFirstRow cfg srcId m2 ms

/-- The conflict gate (sync_engine.py:326-349): with a prior mapping, when
both sides' `updated` stamps are strictly newer than the mapping's recorded
values, resolve by origin-wins and skip when the destination wins. -/
def conflictSkip (src dm : GEvent) (mapping : Option EventMapping)
    (source_calendar_id : String) : Bool :=
  match mapping with
  | none => false
  | some m =>
    match m.source_last_modified, src.updated, m.dest_last_modified, dm.updated with
    | some msm, some sm, some mdm, some dmod =>
      if msm < sm ∧ mdm < dmod then
        decide (resolve_conflict src dm m source_calendar_id = "dest_wins")
      else false
    | _, _, _, _ => false

/-- The `EventMapping(...)` row built after a successful insert
(sync_engine.py:386-397 and 414-426, which are identical). -/
def newMapping (p : SyncParams) (src : GEvent) (srcId cluster origin : String)
    (destId : String) (resUpd : Nat) : EventMapping :=
  { sync_config_id := p.sync_config_id
    source_event_id := srcId
    dest_event_id := destId
    sync_cluster_id := cluster
    content_hash := compute_content_hash src
    last_synced_at := some p.now
    source_last_modified := src.updated
    dest_last_modified := some resUpd
    origin_calendar_id := some origin
    is_privacy_mode := p.privacy_mode_enabled }

/-- The in-place mapping refresh after a successful update
(sync_engine.py:362-369): `origin_calendar_id` is only filled when not
already truthy. -/
def updatedMapping (p : SyncParams) (src : GEvent) (m : EventMapping)
    (origin : String) (resUpd : Nat) : EventMapping :=
  { m with
      content_hash := compute_content_hash src
      last_synced_at := some p.now
      source_last_modified := src.updated
      dest_last_modified := some resUpd
      origin_calendar_id :=
        if truthy m.origin_calendar_id then m.origin_calendar_id else some origin
      is_privacy_mode := p.privacy_mode_enabled }

/-- The body of the main sync loop (sync_engine.py:268-432) for one source
event. -/
def stepEvent (p : SyncParams) (destMap : List (String × GEvent)) (st : LoopState)
    (src : GEvent) : Except SyncError LoopState :=
  if truthy src.id then
    let srcId := src.id.getD ""
    if (should_skip_event src p.sync_config_id).1 then .ok st
    else
      let dest_match := dmLookup destMap srcId
      if src.status = some "cancelled" then
        match dest_match with
        | none => .ok st
        | some dm =>
          match dm.id with
          | none => .error .keyError
          | some dmid =>
            match deleteEvent st.remote dmid with
            | (none, r2) =>
              .ok { st with
                      deleted := st.deleted + 1
                      remote := r2
                      rows := st.rows.filter (fun m => !rowKeyMatches p.sync_config_id srcId m) }
            | (some s, r2) =>
              if s = 404 ∨ s = 410 then
                .ok { st with
                        deleted := st.deleted + 1
                        remote := r2
                        rows := st.rows.filter (fun m => !rowKeyMatches p.sync_config_id srcId m) }
              else .error (.http s)
      else
        let mapping := st.rows.find? (rowKeyMatches p.sync_config_id srcId)
        let origin := get_origin_calendar_id src mapping p.source_calendar_id
        let cluster := match mapping with
          | some m => m.sync_cluster_id
          | none => uuidStr st.nextUuid
        let uu2 := match mapping with
          | some _ => st.nextUuid
          | none => st.nextUuid + 1
        match dest_match with
        | some dm =>
          match dm.id with
          | none => .error .keyError
          | some dmid =>
            let payload := build_payload_from_source src (some cluster) (some dmid)
              p.destination_color_id (some origin) (some p.sync_config_id)
              p.privacy_mode_enabled p.privacy_placeholder_text p.now
            if conflictSkip src dm mapping p.source_calendar_id then
              .ok { st with nextUuid := uu2 }
            else if events_differ payload dm then
              match updateEvent st.remote dmid payload with
              | .ok (result, r2) =>
                match result.updated with
                | none => .error .keyError
                | some resUpd =>
                  let rows2 := match mapping with
                    | some m =>
                      replaceFirstRow p.sync_config_id srcId
                        (updatedMapping p src m origin resUpd) st.rows
                    | none => st.rows
                  .ok { st with
                          updated := st.updated + 1
                          remote := r2
                          rows := rows2
                          nextUuid := uu2 }
              | .error s =>
                if s = 404 ∨ s = 410 then
                  let rows2 := match mapping with
                    | some _ => removeFirstRow p.sync_config_id srcId st.rows
                    | none => st.rows
                  match insertEvent st.remote payload with
                  | .ok (result, r2) =>
                    match result.id, result.updated with
                    | some destId, some resUpd =>
                      .ok { st with
                              created := st.created + 1
                              remote := r2
                              rows := rows2 ++ [newMapping p src srcId cluster origin destId resUpd]
                              nextUuid := uu2 }
                    | _, _ => .error .keyError
                  | .error _ =>
                    .ok { st with rows := rows2, nextUuid := uu2 }
                else .error (.http s)
            else .ok { st with nextUuid := uu2 }
        | none =>
          let payload := build_payload_from_source src (some cluster) none
            p.destination_color_id (some origin) (some p.sync_config_id)
            p.privacy_mode_enabled p.privacy_placeholder_text p.now
          match insertEvent st.remote payload with
          | .ok (result, r2) =>
            match result.id, result.updated with
            | some destId, some resUpd =>
              .ok { st with
                      created := st.created + 1
                      remote := r2
                      rows := st.rows ++ [newMapping p src srcId cluster origin destId resUpd]
                      nextUuid := uu2 }
            | _, _ => .error .keyError
          | .error s =>
            if s = 404 ∨ s = 410 then .ok { st with nextUuid := uu2 }
            else .error (.http s)
  else .ok st

def foldSync (p : SyncParams) (destMap : List (String × GEvent)) :
    LoopState → List GEvent → Except SyncError LoopState
  | st, [] => .ok st
  | st, src :: rest =>
    match stepEvent p destMap st src with
    | .ok st2 => foldSync p destMap st2 rest
    | .error e => .error e

structure SyncResult where
  created : Nat
  updated : Nat
  deleted : Nat
  remote : Remote
  db : List EventMapping
deriving DecidableEq

/-- `SyncEngine.sync_calendars` (sync_engine.py:205-440): build the
destination index from the fetched snapshot, run the loop, commit, and
return the counts.  The source-side snapshot is `source_events`. -/
def sync_calendars (p : SyncParams) (source_events : List GEvent) (r : Remote)
    (db : List EventMapping) (nextUuid : Nat) : Except SyncError SyncResult :=
  let destMap := buildDestMap r.listed
  match foldSync p destMap ⟨0, 0, 0, r, db, nextUuid⟩ source_events with
  | .ok st => .ok ⟨st.created, st.updated, st.deleted, st.remote, st.rows⟩
  | .error e => .error e

/-- The mapping rows durably visible after the pass: the session commits
exactly once, after the loop (line 434); an escaping exception reaches the
caller before any commit, so the transaction's mutations are not persisted. -/
def committedDB (initial : List EventMapping) : Except SyncError SyncResult → List EventMapping
  | .ok res => res.db
  | .error _ => initial

/-!
## Notions for the idempotence analysis

These are specification-side notions (not source functions): the correlation
key of a destination event, the id key of a source event, well-formedness of
the destination state, and the "settled" predicate describing a source event
whose next pass is a no-op.
-/

/-- The key under which `buildDestMap` indexes a destination event, when it
indexes it at all: live (not cancelled) with a truthy metadata source id. -/
def liveKey (ev : GEvent) : Option String :=
  if ev.status = some "cancelled" then none
  else if truthy ev.shared.source_id then some (ev.shared.source_id.getD "") else none

/-- The id key under which the sync loop processes a source event (`none`
for a missing or empty id, which the loop skips). -/
def srcKey (ev : GEvent) : Option String :=
  if truthy ev.id then some (ev.id.getD "") else none

/-- The destination events indexed under key `k`. -/
def keyEvents (store : List GEvent) (k : String) : List GEvent :=
  store.filter (fun e => decide (liveKey e = some k))

/-- A fresh fetch of the destination side: the snapshot reflects the store. -/
def refetch (r : Remote) : Remote := { r with listed := r.store }

/-- Well-formedness of the destination remote state: every stored event has
an id, ids are pairwise distinct, at most one live event is indexed under
any correlation key, ids yet to be generated are fresh, and no faults are
injected. -/
structure StoreWF (r : Remote) : Prop where
  haveIds : ∀ e ∈ r.store, e.id.isSome = true
  idsNodup : (r.store.filterMap GEvent.id).Nodup
  liveNodup : (r.store.filterMap liveKey).Nodup
  fresh : ∀ e ∈ r.store, ∀ n, r.nextId ≤ n → ¬ e.id = some (genId n)
  nofail : r.failIds = []
  noInsFault : r.insertFault = none

/-- `StoreWF` plus a consistent snapshot (`fetch_events` saw the store). -/
structure RemoteWF (r : Remote) extends StoreWF r : Prop where
  snap : r.listed = r.store

/-- A canonical payload instantiation: `events_differ` reads only the
comparable fields, which do not depend on the cluster/dest-id/origin/config
metadata arguments nor on the timestamp. -/
def canonPayload (p : SyncParams) (src : GEvent) : Payload :=
  build_payload_from_source src (some "c") (some "d") p.destination_color_id (some "o")
    (some p.sync_config_id) p.privacy_mode_enabled p.privacy_placeholder_text 0

/-- A source event is settled with respect to a destination store and mapping
rows: processing it again changes nothing.  Untruthy-id and sentinel-tagged
events are skipped outright; a cancelled event must have no indexed
destination copy; a live event must have an indexed copy that either falls
under the conflict-skip gate or compares equal under `events_differ`. -/
def Settled (p : SyncParams) (store : List GEvent) (rows : List EventMapping)
    (src : GEvent) : Prop :=
  truthy src.id = false ∨
  (should_skip_event src p.sync_config_id).1 = true ∨
  (if src.status = some "cancelled" then
    dmLookup (buildDestMap store) (src.id.getD "") = none
  else
    ∃ dm, dmLookup (buildDestMap store) (src.id.getD "") = some dm ∧ dm.id.isSome = true ∧
      (conflictSkip src dm (rows.find? (rowKeyMatches p.sync_config_id (src.id.getD "")))
          p.source_calendar_id = true ∨
        events_differ (canonPayload p src) dm = false))

/-!
## Scheduler (scheduler.py)

The external libraries at the boundary (APScheduler, croniter, pytz) are
collaborators; their accept/reject judgments enter as parameters: `cronOk`
is the set of expressions `CronTrigger.from_crontab` accepts (it raises
`ValueError` otherwise), `croniterOk` the set `croniter(...)` accepts, and
`tzTable` the IANA names `pytz.timezone` resolves (raising
`UnknownTimeZoneError` otherwise).
-/

structure SchedJob where
  job_id : String
  config_id : String
  user_id : String
  cron : String
  tz : String
deriving DecidableEq

structure SchedState where
  running : Bool
  jobs : List SchedJob
deriving DecidableEq

/-- `scheduler.add_job(..., replace_existing=True)`: replace the job with
the same job id, else append. -/
def schedReplaceJob (jobs : List SchedJob) (j : SchedJob) : List SchedJob :=
  if jobs.any (fun q => decide (q.job_id = j.job_id)) then
    jobs.map (fun q => if q.job_id = j.job_id then j else q)
  else jobs ++ [j]

/-- `SyncScheduler.add_job` (scheduler.py:72-108).  An unknown timezone is
caught and falls back to UTC; an invalid cron expression makes
`CronTrigger.from_crontab` raise, which escapes to the caller (`.error`).
When the scheduler is not running the call logs a warning and returns with
no job added. -/
def add_job (cronOk : String → Bool) (tzTable : List String) (st : SchedState)
    (config_id user_id cron_expr timezone_str : String) : Except String SchedState :=
  if st.running then
    let job_id := "sync_" ++ config_id
    let tz := if timezone_str ∈ tzTable then timezone_str else "UTC"
    if cronOk cron_expr then
      .ok { st with jobs := schedReplaceJob st.jobs ⟨job_id, config_id, user_id, cron_expr, tz⟩ }
    else .error "ValueError: invalid crontab expression"
  else .ok st

/-- The scheduler-state jobs visible to the caller after an `add_job` call:
on an escaping exception no registration happened. -/
def jobsAfter (st : SchedState) : Except String SchedState → List SchedJob
  | .ok st2 => st2.jobs
  | .error _ => st.jobs

/-- `validate_cron_expression` (scheduler.py:251-262). -/
def validate_cron_expression (croniterOk : String → Bool) (cron_expr : String) : Bool :=
  croniterOk cron_expr

/-- `validate_timezone` (scheduler.py:265-277). -/
def validate_timezone (tzTable : List String) (timezone_str : String) : Bool :=
  decide (timezone_str ∈ tzTable)

/-!
## Theorems
-/

/-- Helper: the sentinel in the shared metadata of every built payload. -/
theorem build_payload_shared_synced_by_system
    (src : GEvent) (cl de co og cf : Option String) (priv : Bool) (txt : String) (now : Nat) :
    (build_payload_from_source src cl de co og cf priv txt now).shared.synced_by_system =
      some "true" := by
  unfold build_payload_from_source
  dsimp only
  split <;> split <;> split <;> split <;> rfl

/-- C2: with privacy mode enabled, the payload's summary is the placeholder,
description and location are the empty string, no attendees are carried, and
start/end are exactly the source's; start/end are preserved for every
privacy setting. -/
theorem claim_C2_privacy_invariant
    (src : GEvent) (cl de co og cf : Option String) (txt : String) (now : Nat) :
    ((build_payload_from_source src cl de co og cf true txt now).summary = some txt ∧
     (build_payload_from_source src cl de co og cf true txt now).description = some "" ∧
     (build_payload_from_source src cl de co og cf true txt now).location = some "" ∧
     (build_payload_from_source src cl de co og cf true txt now).attendees = none ∧
     (build_payload_from_source src cl de co og cf true txt now).start = src.start ∧
     (build_payload_from_source src cl de co og cf true txt now).end_ = src.end_) ∧
    ∀ priv : Bool,
      (build_payload_from_source src cl de co og cf priv txt now).start = src.start ∧
      (build_payload_from_source src cl de co og cf priv txt now).end_ = src.end_ :=
  ⟨⟨rfl, rfl, rfl, rfl, rfl, rfl⟩, fun _ => ⟨rfl, rfl⟩⟩

/-- C10: the payload never carries an attendees key, for every source event
and every option combination (privacy on or off). -/
theorem claim_C10_attendees_never_copied
    (src : GEvent) (cl de co og cf : Option String) (priv : Bool) (txt : String) (now : Nat) :
    (build_payload_from_source src cl de co og cf priv txt now).attendees = none := rfl

/-- C3: every payload the engine builds carries the `synced_by_system =
"true"` sentinel; `should_skip_event` answers `(true, "synced_by_system")`
for every event carrying the sentinel; hence an engine-written destination
copy (the stored form of any built payload), seen later as a source event,
is skipped. -/
theorem claim_C3_loop_freedom
    (src : GEvent) (cl de co og cf : Option String) (priv : Bool) (txt : String) (now : Nat) :
    (build_payload_from_source src cl de co og cf priv txt now).shared.synced_by_system =
      some "true" ∧
    (∀ (ev : GEvent) (cfg : String), ev.shared.synced_by_system = some "true" →
      should_skip_event ev cfg = (true, "synced_by_system")) ∧
    (∀ (i : String) (u : Nat) (cfg : String),
      should_skip_event
        (applyPayload (build_payload_from_source src cl de co og cf priv txt now) i u) cfg =
        (true, "synced_by_system")) := by
  refine ⟨build_payload_shared_synced_by_system src cl de co og cf priv txt now, ?_, ?_⟩
  · intro ev cfg h
    simp [should_skip_event, h]
  · intro i u cfg
    simp [should_skip_event, applyPayload,
      build_payload_shared_synced_by_system src cl de co og cf priv txt now]

/-- Witness for C3: the sentinel check at a concrete event. -/
theorem claim_C3_loop_freedom_witness :
    should_skip_event { shared := { synced_by_system := some "true" } } "cfg0" =
      (true, "synced_by_system") :=
  (claim_C3_loop_freedom {} none none none none none false "" 0).2.1
    { shared := { synced_by_system := some "true" } } "cfg0" rfl

/-- C9 counterexample: an invalid IANA timezone does not reject the
registration — `add_job` succeeds and a job IS registered for the
configuration id (with the UTC fallback), refuting "for every invalid IANA
timezone string, no job is registered". -/
theorem claim_C9_counterexample :
    (add_job (fun _ => true) ["UTC"] ⟨true, []⟩ "cfg1" "u1" "0 6 * * *" "Not/AZone").map
        SchedState.jobs =
      .ok [⟨"sync_cfg1", "cfg1", "u1", "0 6 * * *", "UTC"⟩] := rfl

/-- Helper: the job handed to `schedReplaceJob` is in the result. -/
theorem schedReplaceJob_mem (jobs : List SchedJob) (j : SchedJob) :
    j ∈ schedReplaceJob jobs j := by
  unfold schedReplaceJob
  split
  · next h =>
    rcases List.any_eq_true.mp h with ⟨q, hq, hid⟩
    refine List.mem_map.mpr ⟨q, hq, ?_⟩
    simp [of_decide_eq_true hid]
  · exact List.mem_append_right _ (List.mem_singleton_self j)

/-- C9 (amended): with the scheduler running, an invalid cron expression is
rejected synchronously by `add_job` — the exception escapes and no job is
registered; an invalid IANA timezone, however, does NOT reject the
registration: the job is registered with the UTC fallback. -/
theorem claim_C9_add_job_validation
    (cronOk : String → Bool) (tzTable : List String) (st : SchedState)
    (cid uid ce tz : String) (hrun : st.running = true) :
    (cronOk ce = false →
      add_job cronOk tzTable st cid uid ce tz = .error "ValueError: invalid crontab expression" ∧
      jobsAfter st (add_job cronOk tzTable st cid uid ce tz) = st.jobs) ∧
    (cronOk ce = true → tz ∉ tzTable →
      ∃ st2, add_job cronOk tzTable st cid uid ce tz = .ok st2 ∧
        (⟨"sync_" ++ cid, cid, uid, ce, "UTC"⟩ : SchedJob) ∈ st2.jobs) := by
  constructor
  · intro hc
    unfold add_job
    simp [hrun, hc, jobsAfter]
  · intro hc htz
    refine ⟨{ st with jobs := schedReplaceJob st.jobs ⟨"sync_" ++ cid, cid, uid, ce, "UTC"⟩ },
      ?_, ?_⟩
    · unfold add_job
      simp [hrun, hc, htz]
    · exact schedReplaceJob_mem st.jobs ⟨"sync_" ++ cid, cid, uid, ce, "UTC"⟩

/-- Witness for C9: both branches of the validation behavior at concrete
inputs. -/
theorem claim_C9_add_job_validation_witness :
    (add_job (fun s => decide (s = "0 6 * * *")) ["UTC"] ⟨true, []⟩ "c" "u" "bad cron" "UTC" =
        .error "ValueError: invalid crontab expression" ∧
      jobsAfter ⟨true, []⟩
        (add_job (fun s => decide (s = "0 6 * * *")) ["UTC"] ⟨true, []⟩ "c" "u" "bad cron" "UTC") =
        [] ) ∧
    ∃ st2,
      add_job (fun s => decide (s = "0 6 * * *")) ["UTC"] ⟨true, []⟩ "c" "u" "0 6 * * *" "Bad/Zone" =
        .ok st2 ∧ (⟨"sync_c", "c", "u", "0 6 * * *", "UTC"⟩ : SchedJob) ∈ st2.jobs :=
  ⟨(claim_C9_add_job_validation (fun s => decide (s = "0 6 * * *")) ["UTC"] ⟨true, []⟩
      "c" "u" "bad cron" "UTC" rfl).1 (by decide),
   (claim_C9_add_job_validation (fun s => decide (s = "0 6 * * *")) ["UTC"] ⟨true, []⟩
      "c" "u" "0 6 * * *" "Bad/Zone" rfl).2 (by decide) (by decide)⟩

/-- Helper: `contentString` reads exactly the nine hashed fields. -/
theorem contentString_congr (e1 e2 : GEvent)
    (h1 : e1.summary = e2.summary) (h2 : e1.description = e2.description)
    (h3 : e1.location = e2.location) (h4 : e1.start = e2.start)
    (h5 : e1.end_ = e2.end_) (h6 : e1.recurrence = e2.recurrence)
    (h7 : e1.transparency = e2.transparency) (h8 : e1.visibility = e2.visibility)
    (h9 : e1.colorId = e2.colorId) :
    contentString e1 = contentString e2 := by
  unfold contentString
  rw [h1, h2, h3, h4, h5, h6, h7, h8, h9]

/-- C8 counterexample: the fingerprint is NOT computed over the same
comparable-field set as `events_differ` — `reminders` is compared by
`events_differ` but absent from the hashed dict, so no two events differing
only in their reminder policy can have different fingerprints (refuting the
claimed existence for that field), while `events_differ` does flag a
reminders-only difference. -/
theorem claim_C8_counterexample :
    (¬ ∃ e1 e2 : GEvent,
        e1.id = e2.id ∧ e1.status = e2.status ∧ e1.summary = e2.summary ∧
        e1.description = e2.description ∧ e1.location = e2.location ∧
        e1.start = e2.start ∧ e1.end_ = e2.end_ ∧ e1.recurrence = e2.recurrence ∧
        e1.transparency = e2.transparency ∧ e1.visibility = e2.visibility ∧
        e1.colorId = e2.colorId ∧ e1.attendees = e2.attendees ∧
        e1.updated = e2.updated ∧ e1.shared = e2.shared ∧
        e1.reminders ≠ e2.reminders ∧
        compute_content_hash e1 ≠ compute_content_hash e2) ∧
    events_differ { reminders := some ⟨false, none⟩ }
      { reminders := some ⟨true, none⟩ } = true := by
  constructor
  · rintro ⟨e1, e2, -, -, h1, h2, h3, h4, h5, h6, h7, h8, h9, -, -, -, hrem, hne⟩
    exact hne (congrArg SHA256.sha256hex
      (contentString_congr e1 e2 h1 h2 h3 h4 h5 h6 h7 h8 h9))
  · decide

/-- Helper: concrete hash evaluations, one hashed field at a time. -/
theorem hash_differs_summary :
    compute_content_hash { summary := some "a" } ≠ compute_content_hash {} := by decide

theorem hash_differs_description :
    compute_content_hash { description := some "a" } ≠ compute_content_hash {} := by decide

theorem hash_differs_location :
    compute_content_hash { location := some "a" } ≠ compute_content_hash {} := by decide

theorem hash_differs_start :
    compute_content_hash { start := some "a" } ≠ compute_content_hash {} := by decide

theorem hash_differs_end :
    compute_content_hash { end_ := some "a" } ≠ compute_content_hash {} := by decide

theorem hash_differs_recurrence :
    compute_content_hash { recurrence := some "a" } ≠ compute_content_hash {} := by decide

theorem hash_differs_transparency :
    compute_content_hash { transparency := some "a" } ≠ compute_content_hash {} := by decide

theorem hash_differs_visibility :
    compute_content_hash { visibility := some "a" } ≠ compute_content_hash {} := by decide

theorem hash_differs_colorId :
    compute_content_hash { colorId := some "a" } ≠ compute_content_hash {} := by decide

/-- C8 (amended): the fingerprint is deterministic — a function of exactly
the nine hashed fields (summary, description, location, start, end,
recurrence, transparency, visibility, color), i.e. the `events_differ`
comparable set minus the reminder policy; it is unchanged by any field
outside this set (id, status, updated, reminders, attendees, metadata), and
for each field in the set two events differing only in that field have
different fingerprints. -/
theorem claim_C8_content_hash
    : (∀ e1 e2 : GEvent,
        e1.summary = e2.summary → e1.description = e2.description →
        e1.location = e2.location → e1.start = e2.start →
        e1.end_ = e2.end_ → e1.recurrence = e2.recurrence →
        e1.transparency = e2.transparency → e1.visibility = e2.visibility →
        e1.colorId = e2.colorId →
        compute_content_hash e1 = compute_content_hash e2) ∧
      compute_content_hash { summary := some "a" } ≠ compute_content_hash {} ∧
      compute_content_hash { description := some "a" } ≠ compute_content_hash {} ∧
      compute_content_hash { location := some "a" } ≠ compute_content_hash {} ∧
      compute_content_hash { start := some "a" } ≠ compute_content_hash {} ∧
      compute_content_hash { end_ := some "a" } ≠ compute_content_hash {} ∧
      compute_content_hash { recurrence := some "a" } ≠ compute_content_hash {} ∧
      compute_content_hash { transparency := some "a" } ≠ compute_content_hash {} ∧
      compute_content_hash { visibility := some "a" } ≠ compute_content_hash {} ∧
      compute_content_hash { colorId := some "a" } ≠ compute_content_hash {} :=
  ⟨fun e1 e2 h1 h2 h3 h4 h5 h6 h7 h8 h9 =>
    congrArg SHA256.sha256hex (contentString_congr e1 e2 h1 h2 h3 h4 h5 h6 h7 h8 h9),
    hash_differs_summary, hash_differs_description, hash_differs_location,
    hash_differs_start, hash_differs_end, hash_differs_recurrence,
    hash_differs_transparency, hash_differs_visibility, hash_differs_colorId⟩

/-- Witness for C8: hash independence of the non-hashed fields at a concrete
pair (same nine fields, different id / updated / reminders / metadata). -/
theorem claim_C8_content_hash_witness :
    compute_content_hash
        { id := some "x", updated := some 7, reminders := some ⟨true, none⟩,
          shared := { source_id := some "s" } } =
      compute_content_hash {} :=
  claim_C8_content_hash.1 _ _ rfl rfl rfl rfl rfl rfl rfl rfl rfl

/-- C7: for a cancelled source event (with a truthy id, not sentinel-tagged):
with no destination match the step is a no-op (no remote call, counts and
state unchanged); with a live destination match the engine issues the
delete, counts it as deleted even when the remote answers 404/410 (the
event is already gone from the store), and removes the mapping rows for the
(configuration, source id) pair. -/
theorem claim_C7_delete_tolerates_gone
    (p : SyncParams) (destMap : List (String × GEvent)) (st : LoopState) (src : GEvent)
    (srcId : String) (hid : src.id = some srcId) (hne : srcId ≠ "")
    (hsent : src.shared.synced_by_system ≠ some "true")
    (hcanc : src.status = some "cancelled") :
    (dmLookup destMap srcId = none → stepEvent p destMap st src = .ok st) ∧
    (∀ dm dmid, dmLookup destMap srcId = some dm → dm.id = some dmid →
      dmid ∉ st.remote.failIds →
      stepEvent p destMap st src = .ok { st with
        deleted := st.deleted + 1,
        remote := { st.remote with
          store := st.remote.store.filter (fun e => decide (e.id ≠ some dmid)) },
        rows := st.rows.filter (fun m => !rowKeyMatches p.sync_config_id srcId m) }) := by
  constructor
  · intro hlook
    unfold stepEvent
    simp [hid, truthy, hne, should_skip_event, hsent, hcanc, hlook]
  · intro dm dmid hlook hdmid hfail
    unfold stepEvent
    simp only [hid, truthy, ne_eq, hne, not_false_eq_true, decide_True, if_true,
      Option.getD_some, should_skip_event, hsent, hcanc, hlook, hdmid]
    unfold deleteEvent
    rw [if_neg hfail]
    by_cases hin : st.remote.store.any (fun e => decide (e.id = some dmid))
    · simp [hin]
    · rw [if_neg hin]
      have hkeep : List.filter (fun e => !decide (e.id = some dmid)) st.remote.store =
          st.remote.store := by
        apply List.filter_eq_self.mpr
        intro e he
        simp only [Bool.not_eq_true', decide_eq_false_iff_not]
        intro hcon
        exact hin (List.any_eq_true.mpr ⟨e, he, by simp [hcon]⟩)
      simp only [decide_not, hkeep]
      simp

/-- Witness for C7: a cancelled event with no destination match is a no-op;
with a destination match the delete is counted even though the store no
longer holds the event (remote answers 404), and the mapping is removed. -/
theorem claim_C7_delete_tolerates_gone_witness :
    (stepEvent ⟨"cfg", "A", "B", none, false, "T", 0⟩ []
        ⟨0, 0, 0, ⟨[], [], 0, 0, [], none⟩, [], 0⟩
        { id := some "s1", status := some "cancelled" } =
      .ok ⟨0, 0, 0, ⟨[], [], 0, 0, [], none⟩, [], 0⟩) ∧
    (stepEvent ⟨"cfg", "A", "B", none, false, "T", 0⟩
        [("s1", { id := some "d1", shared := { source_id := some "s1" } })]
        ⟨0, 0, 0, ⟨[], [], 0, 0, [], none⟩,
          [⟨"cfg", "s1", "d1", "u", "h", none, none, none, none, false⟩], 0⟩
        { id := some "s1", status := some "cancelled" } =
      .ok ⟨0, 0, 1, ⟨[], [], 0, 0, [], none⟩, [], 0⟩) := by
  constructor
  · exact (claim_C7_delete_tolerates_gone _ _ _ _ "s1" rfl (by decide) (by decide) rfl).1 rfl
  · have h := (claim_C7_delete_tolerates_gone ⟨"cfg", "A", "B", none, false, "T", 0⟩
      [("s1", { id := some "d1", shared := { source_id := some "s1" } })]
      ⟨0, 0, 0, ⟨[], [], 0, 0, [], none⟩,
        [⟨"cfg", "s1", "d1", "u", "h", none, none, none, none, false⟩], 0⟩
      { id := some "s1", status := some "cancelled" }
      "s1" rfl (by decide) (by decide) rfl).2
      { id := some "d1", shared := { source_id := some "s1" } } "d1" rfl rfl (by decide)
    simpa using h

/-- C6: when the remote update answers "resource gone" (404), the stale
mapping row is dropped and a fresh insert is attempted; on success the event
counts as created and a new mapping row records origin, fingerprint and both
sides' last-modified stamps; if the recreate insert also fails, the event is
skipped (no count, no new row) and the step still succeeds, so the loop
continues with the remaining events. -/
theorem claim_C6_recreate_on_ghost
    (p : SyncParams) (destMap : List (String × GEvent)) (st : LoopState) (src : GEvent)
    (srcId : String) (dm : GEvent) (dmid : String)
    (mapping : Option EventMapping) (origin cluster : String) (uu2 : Nat) (payload : Payload)
    (hid : src.id = some srcId) (hne : srcId ≠ "")
    (hsent : src.shared.synced_by_system ≠ some "true")
    (hstat : ¬ src.status = some "cancelled")
    (hlook : dmLookup destMap srcId = some dm)
    (hdmid : dm.id = some dmid)
    (hmap : st.rows.find? (rowKeyMatches p.sync_config_id srcId) = mapping)
    (horig : origin = get_origin_calendar_id src mapping p.source_calendar_id)
    (hclus : cluster = (match mapping with
      | some m => m.sync_cluster_id
      | none => uuidStr st.nextUuid))
    (huu : uu2 = (match mapping with
      | some _ => st.nextUuid
      | none => st.nextUuid + 1))
    (hpay : payload = build_payload_from_source src (some cluster) (some dmid)
      p.destination_color_id (some origin) (some p.sync_config_id)
      p.privacy_mode_enabled p.privacy_placeholder_text p.now)
    (hconf : conflictSkip src dm mapping p.source_calendar_id = false)
    (hdiff : events_differ payload dm = true)
    (hgone : updateEvent st.remote dmid payload = .error 404) :
    stepEvent p destMap st src = .ok (
      let rows2 := match mapping with
        | some _ => removeFirstRow p.sync_config_id srcId st.rows
        | none => st.rows
      match st.remote.insertFault with
      | none =>
        { st with
            created := st.created + 1
            remote := { st.remote with
              store := st.remote.store ++
                [applyPayload payload (genId st.remote.nextId) st.remote.nextUpd]
              nextId := st.remote.nextId + 1
              nextUpd := st.remote.nextUpd + 1 }
            rows := rows2 ++
              [newMapping p src srcId cluster origin (genId st.remote.nextId) st.remote.nextUpd]
            nextUuid := uu2 }
      | some _ => { st with rows := rows2, nextUuid := uu2 }) := by
  cases mapping with
  | none =>
    subst horig hclus huu hpay
    unfold stepEvent
    simp only [hid, truthy, ne_eq, hne, not_false_eq_true, decide_True, if_true,
      Option.getD_some, should_skip_event, hsent, hstat, hlook, hdmid, hmap,
      if_false, ite_false, hconf, hdiff, hgone]
    unfold insertEvent
    cases hf : st.remote.insertFault <;> simp [applyPayload]
  | some m =>
    subst horig hclus huu hpay
    unfold stepEvent
    simp only [hid, truthy, ne_eq, hne, not_false_eq_true, decide_True, if_true,
      Option.getD_some, should_skip_event, hsent, hstat, hlook, hdmid, hmap,
      if_false, ite_false, hconf, hdiff, hgone]
    unfold insertEvent
    cases hf : st.remote.insertFault <;> simp [applyPayload]

/-- Witness for C6: a concrete ghost scenario — the snapshot still lists the
destination copy but the store no longer holds it; the update 404s, the
stale mapping row is dropped, the recreate insert succeeds, and the new
mapping records origin, fingerprint and both last-modified stamps. -/
theorem claim_C6_recreate_on_ghost_witness :
    stepEvent ⟨"cfg", "A", "B", none, false, "T", 50⟩
      [("s1", { id := some "d1", summary := some "Old",
                shared := { source_id := some "s1" } })]
      ⟨0, 0, 0, ⟨[], [], 0, 10, [], none⟩,
        [⟨"cfg", "s1", "dOld", "clu", "h", none, some 1, some 1, some "A", false⟩], 0⟩
      { id := some "s1", summary := some "Standup", updated := some 5 } =
    .ok ⟨1, 0, 0,
      ⟨[], [applyPayload (build_payload_from_source
              { id := some "s1", summary := some "Standup", updated := some 5 }
              (some "clu") (some "d1") none (some "A") (some "cfg") false "T" 50)
            (genId 0) 10], 1, 11, [], none⟩,
      [newMapping ⟨"cfg", "A", "B", none, false, "T", 50⟩
        { id := some "s1", summary := some "Standup", updated := some 5 }
        "s1" "clu" "A" (genId 0) 10], 0⟩ := by
  have h := claim_C6_recreate_on_ghost
    ⟨"cfg", "A", "B", none, false, "T", 50⟩
    [("s1", { id := some "d1", summary := some "Old",
              shared := { source_id := some "s1" } })]
    ⟨0, 0, 0, ⟨[], [], 0, 10, [], none⟩,
      [⟨"cfg", "s1", "dOld", "clu", "h", none, some 1, some 1, some "A", false⟩], 0⟩
    { id := some "s1", summary := some "Standup", updated := some 5 }
    "s1"
    { id := some "d1", summary := some "Old", shared := { source_id := some "s1" } }
    "d1"
    (some ⟨"cfg", "s1", "dOld", "clu", "h", none, some 1, some 1, some "A", false⟩)
    "A" "clu" 0
    (build_payload_from_source
      { id := some "s1", summary := some "Standup", updated := some 5 }
      (some "clu") (some "d1") none (some "A") (some "cfg") false "T" 50)
    rfl (by decide) (by decide) (by decide) rfl rfl rfl rfl rfl rfl rfl
    rfl rfl rfl
  simpa using h

/-- C4 (amended): in a conflict (both sides' last-modified strictly newer
than the mapping's recorded values), the update is skipped if and only if
the mapping's STORED `origin_calendar_id` differs from the source calendar
id — in particular a `None` stored origin also skips; the
mapping-else-metadata-else-source fallback chain (`get_origin_calendar_id`)
is not consulted by `resolve_conflict`. -/
theorem claim_C4_origin_wins
    (p : SyncParams) (destMap : List (String × GEvent)) (st : LoopState) (src : GEvent)
    (srcId : String) (dm : GEvent) (dmid : String) (m : EventMapping)
    (origin : String) (payload : Payload) (res : GEvent) (r2 : Remote) (resUpd : Nat)
    (sm dmod msm mdm : Nat)
    (hid : src.id = some srcId) (hne : srcId ≠ "")
    (hsent : src.shared.synced_by_system ≠ some "true")
    (hstat : ¬ src.status = some "cancelled")
    (hlook : dmLookup destMap srcId = some dm)
    (hdmid : dm.id = some dmid)
    (hmap : st.rows.find? (rowKeyMatches p.sync_config_id srcId) = some m)
    (horig : origin = get_origin_calendar_id src (some m) p.source_calendar_id)
    (hpay : payload = build_payload_from_source src (some m.sync_cluster_id) (some dmid)
      p.destination_color_id (some origin) (some p.sync_config_id)
      p.privacy_mode_enabled p.privacy_placeholder_text p.now)
    (hsm : src.updated = some sm) (hdmod : dm.updated = some dmod)
    (hmsm : m.source_last_modified = some msm) (hmdm : m.dest_last_modified = some mdm)
    (h1 : msm < sm) (h2 : mdm < dmod)
    (hdiff : events_differ payload dm = true)
    (hupd : updateEvent st.remote dmid payload = .ok (res, r2))
    (hres : res.updated = some resUpd) :
    (m.origin_calendar_id ≠ some p.source_calendar_id →
      stepEvent p destMap st src = .ok st) ∧
    (m.origin_calendar_id = some p.source_calendar_id →
      stepEvent p destMap st src = .ok { st with
        updated := st.updated + 1
        remote := r2
        rows := replaceFirstRow p.sync_config_id srcId
          (updatedMapping p src m origin resUpd) st.rows }) := by
  constructor
  · intro hno
    unfold stepEvent
    simp only [hid, truthy, ne_eq, hne, not_false_eq_true, decide_True, if_true,
      Option.getD_some, should_skip_event, hsent, hstat, hlook, hdmid, hmap,
      if_false, ite_false]
    have hcs : conflictSkip src dm (some m) p.source_calendar_id = true := by
      unfold conflictSkip resolve_conflict
      simp [hmsm, hsm, hmdm, hdmod, h1, h2, hno]
    simp [hcs]
  · intro hyes
    unfold stepEvent
    simp only [hid, truthy, ne_eq, hne, not_false_eq_true, decide_True, if_true,
      Option.getD_some, should_skip_event, hsent, hstat, hlook, hdmid, hmap,
      if_false, ite_false]
    have hcs : conflictSkip src dm (some m) p.source_calendar_id = false := by
      unfold conflictSkip resolve_conflict
      simp [hmsm, hsm, hmdm, hdmod, h1, h2, hyes]
    simp only [hcs, Bool.false_eq_true, if_false, ← horig, ← hpay, hdiff, if_true,
      hupd, hres]

/-- C4 counterexample: a conflict state whose mapping row has a `None`
stored origin.  The claimed origin — the fallback chain's result — is the
SOURCE calendar (`"A"`, not the destination side `"B"`), so the claim says
the update proceeds; the code's `resolve_conflict` compares only the stored
origin (`None ≠ "A"`), answers dest-wins, and skips: the step leaves the
state untouched even though the payload differs and the update call would
succeed. -/
theorem claim_C4_counterexample :
    get_origin_calendar_id
        { id := some "s1", summary := some "New", updated := some 5 }
        (some ⟨"cfg", "s1", "d1", "clu", "h", none, some 1, some 1, none, false⟩) "A" =
      "A" ∧
    ("A" : String) ≠ "B" ∧
    conflictSkip { id := some "s1", summary := some "New", updated := some 5 }
      { id := some "d1", summary := some "Old", updated := some 4,
        shared := { source_id := some "s1" } }
      (some ⟨"cfg", "s1", "d1", "clu", "h", none, some 1, some 1, none, false⟩) "A" = true ∧
    events_differ
      (build_payload_from_source
        { id := some "s1", summary := some "New", updated := some 5 }
        (some "clu") (some "d1") none (some "A") (some "cfg") false "T" 9)
      { id := some "d1", summary := some "Old", updated := some 4,
        shared := { source_id := some "s1" } } = true ∧
    stepEvent ⟨"cfg", "A", "B", none, false, "T", 9⟩
      [("s1", { id := some "d1", summary := some "Old", updated := some 4,
                shared := { source_id := some "s1" } })]
      ⟨0, 0, 0,
        ⟨[], [{ id := some "d1", summary := some "Old", updated := some 4,
                shared := { source_id := some "s1" } }], 0, 10, [], none⟩,
        [⟨"cfg", "s1", "d1", "clu", "h", none, some 1, some 1, none, false⟩], 0⟩
      { id := some "s1", summary := some "New", updated := some 5 } =
    .ok ⟨0, 0, 0,
        ⟨[], [{ id := some "d1", summary := some "Old", updated := some 4,
                shared := { source_id := some "s1" } }], 0, 10, [], none⟩,
        [⟨"cfg", "s1", "d1", "clu", "h", none, some 1, some 1, none, false⟩], 0⟩ :=
  ⟨rfl, by decide, rfl, rfl, rfl⟩

/-- Witness for C4: both branches of the amended origin-wins behavior at
concrete conflict states — stored origin = source calendar proceeds with the
update; stored origin = destination calendar skips. -/
theorem claim_C4_origin_wins_witness :
    (stepEvent ⟨"cfg", "A", "B", none, false, "T", 9⟩
      [("s1", { id := some "d1", summary := some "Old", updated := some 4,
                shared := { source_id := some "s1" } })]
      ⟨0, 0, 0,
        ⟨[], [{ id := some "d1", summary := some "Old", updated := some 4,
                shared := { source_id := some "s1" } }], 0, 10, [], none⟩,
        [⟨"cfg", "s1", "d1", "clu", "h", none, some 1, some 1, some "A", false⟩], 0⟩
      { id := some "s1", summary := some "New", updated := some 5 } =
    .ok ⟨0, 1, 0,
        ⟨[], [applyPayload (build_payload_from_source
                { id := some "s1", summary := some "New", updated := some 5 }
                (some "clu") (some "d1") none (some "A") (some "cfg") false "T" 9)
              "d1" 10], 0, 11, [], none⟩,
        [updatedMapping ⟨"cfg", "A", "B", none, false, "T", 9⟩
          { id := some "s1", summary := some "New", updated := some 5 }
          ⟨"cfg", "s1", "d1", "clu", "h", none, some 1, some 1, some "A", false⟩
          "A" 10], 0⟩) ∧
    (stepEvent ⟨"cfg", "A", "B", none, false, "T", 9⟩
      [("s1", { id := some "d1", summary := some "Old", updated := some 4,
                shared := { source_id := some "s1" } })]
      ⟨0, 0, 0,
        ⟨[], [{ id := some "d1", summary := some "Old", updated := some 4,
                shared := { source_id := some "s1" } }], 0, 10, [], none⟩,
        [⟨"cfg", "s1", "d1", "clu", "h", none, some 1, some 1, some "B", false⟩], 0⟩
      { id := some "s1", summary := some "New", updated := some 5 } =
    .ok ⟨0, 0, 0,
        ⟨[], [{ id := some "d1", summary := some "Old", updated := some 4,
                shared := { source_id := some "s1" } }], 0, 10, [], none⟩,
        [⟨"cfg", "s1", "d1", "clu", "h", none, some 1, some 1, some "B", false⟩], 0⟩) := by
  constructor
  · have h := (claim_C4_origin_wins
      ⟨"cfg", "A", "B", none, false, "T", 9⟩
      [("s1", { id := some "d1", summary := some "Old", updated := some 4,
                shared := { source_id := some "s1" } })]
      ⟨0, 0, 0,
        ⟨[], [{ id := some "d1", summary := some "Old", updated := some 4,
                shared := { source_id := some "s1" } }], 0, 10, [], none⟩,
        [⟨"cfg", "s1", "d1", "clu", "h", none, some 1, some 1, some "A", false⟩], 0⟩
      { id := some "s1", summary := some "New", updated := some 5 }
      "s1"
      { id := some "d1", summary := some "Old", updated := some 4,
        shared := { source_id := some "s1" } }
      "d1"
      ⟨"cfg", "s1", "d1", "clu", "h", none, some 1, some 1, some "A", false⟩
      "A"
      (build_payload_from_source
        { id := some "s1", summary := some "New", updated := some 5 }
        (some "clu") (some "d1") none (some "A") (some "cfg") false "T" 9)
      (applyPayload (build_payload_from_source
        { id := some "s1", summary := some "New", updated := some 5 }
        (some "clu") (some "d1") none (some "A") (some "cfg") false "T" 9) "d1" 10)
      ⟨[], [applyPayload (build_payload_from_source
        { id := some "s1", summary := some "New", updated := some 5 }
        (some "clu") (some "d1") none (some "A") (some "cfg") false "T" 9) "d1" 10],
        0, 11, [], none⟩
      10 5 4 1 1
      rfl (by decide) (by decide) (by decide) rfl rfl rfl rfl rfl rfl rfl rfl rfl
      (by decide) (by decide) rfl rfl rfl).2 rfl
    simpa using h
  · have h := (claim_C4_origin_wins
      ⟨"cfg", "A", "B", none, false, "T", 9⟩
      [("s1", { id := some "d1", summary := some "Old", updated := some 4,
                shared := { source_id := some "s1" } })]
      ⟨0, 0, 0,
        ⟨[], [{ id := some "d1", summary := some "Old", updated := some 4,
                shared := { source_id := some "s1" } }], 0, 10, [], none⟩,
        [⟨"cfg", "s1", "d1", "clu", "h", none, some 1, some 1, some "B", false⟩], 0⟩
      { id := some "s1", summary := some "New", updated := some 5 }
      "s1"
      { id := some "d1", summary := some "Old", updated := some 4,
        shared := { source_id := some "s1" } }
      "d1"
      ⟨"cfg", "s1", "d1", "clu", "h", none, some 1, some 1, some "B", false⟩
      "B"
      (build_payload_from_source
        { id := some "s1", summary := some "New", updated := some 5 }
        (some "clu") (some "d1") none (some "B") (some "cfg") false "T" 9)
      (applyPayload (build_payload_from_source
        { id := some "s1", summary := some "New", updated := some 5 }
        (some "clu") (some "d1") none (some "B") (some "cfg") false "T" 9) "d1" 10)
      ⟨[], [applyPayload (build_payload_from_source
        { id := some "s1", summary := some "New", updated := some 5 }
        (some "clu") (some "d1") none (some "B") (some "cfg") false "T" 9) "d1" 10],
        0, 11, [], none⟩
      10 5 4 1 1
      rfl (by decide) (by decide) (by decide) rfl rfl rfl rfl rfl rfl rfl rfl rfl
      (by decide) (by decide) rfl rfl rfl).1 (by decide)
    simpa using h

theorem mem_removeFirstRow {cfg sid : String} {x : EventMapping} :
    ∀ {l : List EventMapping}, x ∈ removeFirstRow cfg sid l → x ∈ l := by
  intro l
  induction l with
  | nil => simp [removeFirstRow]
  | cons m ms ih =>
    unfold removeFirstRow
    split
    · exact fun hx => List.mem_cons_of_mem m hx
    · intro hx
      rcases List.mem_cons.mp hx with h | h
      · exact h ▸ List.mem_cons_self m ms
      · exact List.mem_cons_of_mem m (ih h)

theorem mem_replaceFirstRow {cfg sid : String} {m2 x : EventMapping} :
    ∀ {l : List EventMapping}, x ∈ replaceFirstRow cfg sid m2 l → x ∈ l ∨ x = m2 := by
  intro l
  induction l with
  | nil => simp [replaceFirstRow]
  | cons m ms ih =>
    unfold replaceFirstRow
    split
    · intro hx
      rcases List.mem_cons.mp hx with h | h
      · exact .inr h
      · exact .inl (List.mem_cons_of_mem m h)
    · intro hx
      rcases List.mem_cons.mp hx with h | h
      · exact .inl (h ▸ List.mem_cons_self m ms)
      · rcases ih h with h2 | h2
        · exact .inl (List.mem_cons_of_mem m h2)
        · exact .inr h2

theorem deleteEvent_nextId (r : Remote) (id : String) :
    ((deleteEvent r id).2).nextId = r.nextId := by
  unfold deleteEvent
  split
  · rfl
  · split <;> rfl

theorem updateEvent_ok {r : Remote} {id : String} {b : Payload} {res : GEvent} {r2 : Remote}
    (h : updateEvent r id b = .ok (res, r2)) :
    res = applyPayload b id r.nextUpd ∧ r2.nextId = r.nextId := by
  unfold updateEvent at h
  split at h
  · exact Except.noConfusion h
  · split at h
    · simp only [Except.ok.injEq, Prod.mk.injEq] at h
      obtain ⟨h1, h2⟩ := h
      subst h1 h2
      exact ⟨rfl, rfl⟩
    · exact Except.noConfusion h

theorem insertEvent_ok {r : Remote} {b : Payload} {res : GEvent} {r2 : Remote}
    (h : insertEvent r b = .ok (res, r2)) :
    res = applyPayload b (genId r.nextId) r.nextUpd ∧ r2.nextId = r.nextId + 1 := by
  unfold insertEvent at h
  split at h
  · exact Except.noConfusion h
  · simp only [Except.ok.injEq, Prod.mk.injEq] at h
    obtain ⟨h1, h2⟩ := h
    subst h1 h2
    exact ⟨rfl, rfl⟩

section ProvenanceSection

attribute [local irreducible] compute_content_hash build_payload_from_source

theorem stepEvent_rows_provenance (p : SyncParams) (destMap : List (String × GEvent))
    (st : LoopState) (src : GEvent) (st2 : LoopState)
    (h : stepEvent p destMap st src = .ok st2) :
    st.remote.nextId ≤ st2.remote.nextId ∧
    ∀ m ∈ st2.rows, (∃ m0 ∈ st.rows, m0.dest_event_id = m.dest_event_id) ∨
      (∃ n, st.remote.nextId ≤ n ∧ n < st2.remote.nextId ∧ m.dest_event_id = genId n) := by
  unfold stepEvent at h
  simp only [] at h
  repeat' split at h
  all_goals try exact Except.noConfusion h
  all_goals injection h with h
  all_goals subst h
  all_goals try exact ⟨le_refl _, fun m hm => .inl ⟨m, hm, rfl⟩⟩
  · rename_i xx sid hsid yy r2 heq
    have hn := deleteEvent_nextId st.remote sid
    rw [heq] at hn
    exact ⟨le_of_eq hn.symm, fun m hm => .inl ⟨m, List.mem_of_mem_filter hm, rfl⟩⟩
  · rename_i xx sid hsid yy s r2 heq h404
    have hn := deleteEvent_nextId st.remote sid
    rw [heq] at hn
    exact ⟨le_of_eq hn.symm, fun m hm => .inl ⟨m, List.mem_of_mem_filter hm, rfl⟩⟩
  -- update success, prior mapping found: the row is refreshed in place
  · rename_i xx result r2 hupd yy resUpd hres mapv m hfind
    obtain ⟨hres2, hnext⟩ := updateEvent_ok hupd
    refine ⟨le_of_eq hnext.symm, fun x hx => ?_⟩
    rcases mem_replaceFirstRow hx with h2 | h2
    · exact .inl ⟨x, h2, rfl⟩
    · exact .inl ⟨m, List.mem_of_find?_eq_some hfind, by rw [h2]; rfl⟩
  -- update success, no prior mapping: rows unchanged
  · rename_i result r2 hupd yy resUpd hres mapv hfind
    obtain ⟨-, hnext⟩ := updateEvent_ok hupd
    exact ⟨le_of_eq hnext.symm, fun x hx => .inl ⟨x, hx, rfl⟩⟩
  -- ghost path: update 404, recreate insert succeeds, prior mapping dropped
  · rename_i result r2 hins yy zz destId resUpd hresid hresupd mapv m hfind
    obtain ⟨hres2, hnext⟩ := insertEvent_ok hins
    have hdest : destId = genId st.remote.nextId := by
      rw [hres2] at hresid
      simpa [applyPayload] using hresid.symm
    refine ⟨?_, fun x hx => ?_⟩
    · show st.remote.nextId ≤ r2.nextId
      omega
    · rcases List.mem_append.mp hx with h2 | h2
      · exact .inl ⟨x, mem_removeFirstRow h2, rfl⟩
      · refine .inr ⟨st.remote.nextId, le_refl _, ?_, ?_⟩
        · show st.remote.nextId < r2.nextId
          omega
        · rw [List.mem_singleton.mp h2, hdest]
          rfl
  -- ghost path without a prior mapping
  · rename_i result r2 hins yy zz destId resUpd hresid hresupd mapv hfind
    obtain ⟨hres2, hnext⟩ := insertEvent_ok hins
    have hdest : destId = genId st.remote.nextId := by
      rw [hres2] at hresid
      simpa [applyPayload] using hresid.symm
    refine ⟨?_, fun x hx => ?_⟩
    · show st.remote.nextId ≤ r2.nextId
      omega
    · rcases List.mem_append.mp hx with h2 | h2
      · exact .inl ⟨x, h2, rfl⟩
      · refine .inr ⟨st.remote.nextId, le_refl _, ?_, ?_⟩
        · show st.remote.nextId < r2.nextId
          omega
        · rw [List.mem_singleton.mp h2, hdest]
          rfl
  -- ghost path: recreate insert also fails — mapping dropped, step continues
  · rename_i mapv m hfind
    exact ⟨le_refl _, fun x hx => .inl ⟨x, mem_removeFirstRow hx, rfl⟩⟩
  -- create path, prior mapping present (cluster reused): new mapping appended
  · rename_i result r2 hins yy zz destId resUpd hresid hresupd mapv m hfind
    obtain ⟨hres2, hnext⟩ := insertEvent_ok hins
    have hdest : destId = genId st.remote.nextId := by
      rw [hres2] at hresid
      simpa [applyPayload] using hresid.symm
    refine ⟨?_, fun x hx => ?_⟩
    · show st.remote.nextId ≤ r2.nextId
      omega
    · rcases List.mem_append.mp hx with h2 | h2
      · exact .inl ⟨x, h2, rfl⟩
      · refine .inr ⟨st.remote.nextId, le_refl _, ?_, ?_⟩
        · show st.remote.nextId < r2.nextId
          omega
        · rw [List.mem_singleton.mp h2, hdest]
          rfl
  -- create path without a prior mapping
  · rename_i result r2 hins yy zz destId resUpd hresid hresupd mapv hfind
    obtain ⟨hres2, hnext⟩ := insertEvent_ok hins
    have hdest : destId = genId st.remote.nextId := by
      rw [hres2] at hresid
      simpa [applyPayload] using hresid.symm
    refine ⟨?_, fun x hx => ?_⟩
    · show st.remote.nextId ≤ r2.nextId
      omega
    · rcases List.mem_append.mp hx with h2 | h2
      · exact .inl ⟨x, h2, rfl⟩
      · refine .inr ⟨st.remote.nextId, le_refl _, ?_, ?_⟩
        · show st.remote.nextId < r2.nextId
          omega
        · rw [List.mem_singleton.mp h2, hdest]
          rfl

/-- Provenance over the whole loop, by induction. -/
theorem foldSync_rows_provenance (p : SyncParams) (destMap : List (String × GEvent)) :
    ∀ (srcs : List GEvent) (st st2 : LoopState),
    foldSync p destMap st srcs = .ok st2 →
    st.remote.nextId ≤ st2.remote.nextId ∧
    ∀ m ∈ st2.rows, (∃ m0 ∈ st.rows, m0.dest_event_id = m.dest_event_id) ∨
      (∃ n, st.remote.nextId ≤ n ∧ n < st2.remote.nextId ∧ m.dest_event_id = genId n) := by
  intro srcs
  induction srcs with
  | nil =>
    intro st st2 h
    unfold foldSync at h
    injection h with h
    subst h
    exact ⟨le_refl _, fun m hm => .inl ⟨m, hm, rfl⟩⟩
  | cons s rest ih =>
    intro st st2 h
    unfold foldSync at h
    cases hs : stepEvent p destMap st s with
    | error e => rw [hs] at h; exact Except.noConfusion h
    | ok st1 =>
      rw [hs] at h
      obtain ⟨hle1, hprov1⟩ := stepEvent_rows_provenance p destMap st s st1 hs
      obtain ⟨hle2, hprov2⟩ := ih st1 st2 h
      refine ⟨le_trans hle1 hle2, fun m hm => ?_⟩
      rcases hprov2 m hm with ⟨m1, hm1, he⟩ | ⟨n, hn1, hn2, he⟩
      · rcases hprov1 m1 hm1 with ⟨m0, hm0, he0⟩ | ⟨n, hn1, hn2, he0⟩
        · exact .inl ⟨m0, hm0, he0.trans he⟩
        · exact .inr ⟨n, hn1, lt_of_lt_of_le hn2 hle2, he ▸ he0⟩
      · exact .inr ⟨n, le_trans hle1 hn1, hn2, he⟩

/-- C5: the pass commits exactly once, after the loop — a failing pass
persists no mapping mutation; and in every committed state each mapping row
either keeps a destination event id already present before the pass or
references a `genId` consumed by a successful insert of this pass. -/
theorem claim_C5_atomic_mapping_persistence (p : SyncParams) (srcs : List GEvent)
    (r : Remote) (db : List EventMapping) (uu : Nat) :
    (∀ e, sync_calendars p srcs r db uu = .error e →
      committedDB db (sync_calendars p srcs r db uu) = db) ∧
    (∀ m ∈ committedDB db (sync_calendars p srcs r db uu),
      (∃ m0 ∈ db, m0.dest_event_id = m.dest_event_id) ∨
      (∃ res, sync_calendars p srcs r db uu = .ok res ∧
        ∃ n, r.nextId ≤ n ∧ n < res.remote.nextId ∧ m.dest_event_id = genId n)) := by
  constructor
  · intro e he
    rw [he]
    rfl
  · intro m hm
    cases hs : sync_calendars p srcs r db uu with
    | error e =>
      rw [hs] at hm
      exact .inl ⟨m, hm, rfl⟩
    | ok res =>
      rw [hs] at hm
      unfold sync_calendars at hs
      simp only [] at hs
      cases hf : foldSync p (buildDestMap r.listed) ⟨0, 0, 0, r, db, uu⟩ srcs with
      | error e => rw [hf] at hs; exact Except.noConfusion hs
      | ok stf =>
        rw [hf] at hs
        injection hs with hs
        obtain ⟨hle, hprov⟩ :=
          foldSync_rows_provenance p (buildDestMap r.listed) srcs ⟨0, 0, 0, r, db, uu⟩ stf hf
        subst hs
        rcases hprov m hm with ⟨m0, h0, he⟩ | ⟨n, hn1, hn2, he⟩
        · exact .inl ⟨m0, h0, he⟩
        · exact .inr ⟨_, rfl, n, hn1, hn2, he⟩

end ProvenanceSection

/-- Witness for C5: a pass whose only insert fails with a server error
raises, and the committed rows are exactly the pre-pass rows; the surviving
row's destination id is its own. -/
theorem claim_C5_atomic_mapping_persistence_witness :
    committedDB [⟨"cfg", "s1", "d1", "clu", "h", none, none, none, none, false⟩]
        (sync_calendars ⟨"cfg", "A", "B", none, false, "T", 0⟩
          [{ id := some "s1", summary := some "X" }]
          ⟨[], [], 0, 0, [], some 500⟩
          [⟨"cfg", "s1", "d1", "clu", "h", none, none, none, none, false⟩] 0) =
      [⟨"cfg", "s1", "d1", "clu", "h", none, none, none, none, false⟩] ∧
    ((∃ m0 ∈ [(⟨"cfg", "s1", "d1", "clu", "h", none, none, none, none, false⟩ : EventMapping)],
        m0.dest_event_id =
          (⟨"cfg", "s1", "d1", "clu", "h", none, none, none, none, false⟩ : EventMapping).dest_event_id) ∨
      (∃ res, sync_calendars ⟨"cfg", "A", "B", none, false, "T", 0⟩
          [{ id := some "s1", summary := some "X" }]
          ⟨[], [], 0, 0, [], some 500⟩
          [⟨"cfg", "s1", "d1", "clu", "h", none, none, none, none, false⟩] 0 = .ok res ∧
        ∃ n, 0 ≤ n ∧ n < res.remote.nextId ∧
          (⟨"cfg", "s1", "d1", "clu", "h", none, none, none, none, false⟩ : EventMapping).dest_event_id =
            genId n)) :=
  ⟨(claim_C5_atomic_mapping_persistence ⟨"cfg", "A", "B", none, false, "T", 0⟩
      [{ id := some "s1", summary := some "X" }]
      ⟨[], [], 0, 0, [], some 500⟩
      [⟨"cfg", "s1", "d1", "clu", "h", none, none, none, none, false⟩] 0).1
      (.http 500) rfl,
   (claim_C5_atomic_mapping_persistence ⟨"cfg", "A", "B", none, false, "T", 0⟩
      [{ id := some "s1", summary := some "X" }]
      ⟨[], [], 0, 0, [], some 500⟩
      [⟨"cfg", "s1", "d1", "clu", "h", none, none, none, none, false⟩] 0).2
      ⟨"cfg", "s1", "d1", "clu", "h", none, none, none, none, false⟩ (by decide)⟩

theorem genId_inj {m n : Nat} (h : genId m = genId n) : m = n := by
  have hl := congrArg String.length h
  simpa [genId, String.length] using hl

theorem keyEvents_cons (e : GEvent) (s : List GEvent) (k : String) :
    keyEvents (e :: s) k =
      if liveKey e = some k then e :: keyEvents s k else keyEvents s k := by
  unfold keyEvents
  rw [List.filter_cons]
  split <;> simp_all

theorem keyEvents_append (s t : List GEvent) (k : String) :
    keyEvents (s ++ t) k = keyEvents s k ++ keyEvents t k := by
  unfold keyEvents
  rw [List.filter_append]

theorem keyEvents_mem {s : List GEvent} {k : String} {e : GEvent}
    (h : e ∈ keyEvents s k) : e ∈ s ∧ liveKey e = some k := by
  unfold keyEvents at h
  have h2 := List.of_mem_filter h
  exact ⟨List.mem_of_mem_filter h, by simpa using h2⟩

theorem keyEvents_eq_nil_iff (s : List GEvent) (k : String) :
    keyEvents s k = [] ↔ ∀ e ∈ s, liveKey e ≠ some k := by
  unfold keyEvents
  rw [List.filter_eq_nil]
  simp

theorem mem_filterMap_liveKey (s : List GEvent) (k : String) :
    k ∈ s.filterMap liveKey ↔ keyEvents s k ≠ [] := by
  rw [List.mem_filterMap]
  rw [Ne, keyEvents_eq_nil_iff]
  push_neg
  exact Iff.rfl

theorem keyEvents_length_le_one {s : List GEvent} (h : (s.filterMap liveKey).Nodup)
    (k : String) : (keyEvents s k).length ≤ 1 := by
  induction s with
  | nil => simp [keyEvents]
  | cons e rest ih =>
    rw [keyEvents_cons]
    rw [List.filterMap_cons] at h
    split
    · next hk =>
      rw [hk] at h
      have hnil : keyEvents rest k = [] := by
        by_contra hne
        exact (List.nodup_cons.mp h).1 ((mem_filterMap_liveKey rest k).mpr hne)
      simp [hnil]
    · cases hlk : liveKey e with
      | none => rw [hlk] at h; exact ih h
      | some k2 => rw [hlk] at h; exact ih (List.nodup_cons.mp h).2

theorem id_unique {s : List GEvent} (h : (s.filterMap GEvent.id).Nodup)
    {e1 e2 : GEvent} (h1 : e1 ∈ s) (h2 : e2 ∈ s) {i : String}
    (hi1 : e1.id = some i) (hi2 : e2.id = some i) : e1 = e2 := by
  induction s with
  | nil => cases h1
  | cons a rest ih =>
    rw [List.filterMap_cons] at h
    rcases List.mem_cons.mp h1 with rfl | h1r
    · rcases List.mem_cons.mp h2 with rfl | h2r
      · rfl
      · exfalso
        rw [hi1] at h
        exact (List.nodup_cons.mp h).1 (List.mem_filterMap.mpr ⟨e2, h2r, hi2⟩)
    · rcases List.mem_cons.mp h2 with rfl | h2r
      · exfalso
        rw [hi2] at h
        exact (List.nodup_cons.mp h).1 (List.mem_filterMap.mpr ⟨e1, h1r, hi1⟩)
      · cases ha : a.id with
        | none => rw [ha] at h; exact ih h h1r h2r
        | some j => rw [ha] at h; exact ih (List.nodup_cons.mp h).2 h1r h2r

-- ## destination-map lookup characterization

theorem find?_map_replace (m : List (String × GEvent)) (k : String) (v : GEvent) :
    List.find? (fun q => decide (q.1 = k)) (m.map (fun q => if q.1 = k then (k, v) else q)) =
      (List.find? (fun q => decide (q.1 = k)) m).map (fun _ => (k, v)) := by
  induction m with
  | nil => rfl
  | cons a rest ih =>
    by_cases hak : a.1 = k
    · simp [List.find?_cons, hak, ih]
    · simp [List.find?_cons, hak, ih]

theorem find?_map_replace_other (m : List (String × GEvent)) (k k2 : String) (v : GEvent)
    (h : k2 ≠ k) :
    List.find? (fun q => decide (q.1 = k2)) (m.map (fun q => if q.1 = k then (k, v) else q)) =
      List.find? (fun q => decide (q.1 = k2)) m := by
  induction m with
  | nil => rfl
  | cons a rest ih =>
    by_cases hak : a.1 = k
    · have h1 : ¬ ((k, v).1 = k2) := fun h2 => h (h2.symm)
      have h2 : ¬ (a.1 = k2) := by rw [hak]; exact fun h3 => h h3.symm
      simp [List.find?_cons, hak, h1, h2, ih]
    · by_cases hak2 : a.1 = k2
      · simp [List.find?_cons, hak, hak2, h]
      · simp [List.find?_cons, hak, hak2, ih]

theorem dmLookup_destMapInsert_self (m : List (String × GEvent)) (k : String) (v : GEvent) :
    dmLookup (destMapInsert m k v) k = some v := by
  unfold destMapInsert dmLookup
  split
  · rw [find?_map_replace]
    cases hf : List.find? (fun q => decide (q.1 = k)) m with
    | none =>
      next hany =>
      exfalso
      rcases List.any_eq_true.mp hany with ⟨q, hq, hqk⟩
      exact absurd hqk (by simpa using List.find?_eq_none.mp hf q hq)
    | some q => rfl
  · rw [List.find?_append]
    next hany =>
    have hf : List.find? (fun q => decide (q.1 = k)) m = none := by
      apply List.find?_eq_none.mpr
      intro q hq
      intro hc
      exact hany (List.any_eq_true.mpr ⟨q, hq, hc⟩)
    simp [hf]

theorem dmLookup_destMapInsert_other (m : List (String × GEvent)) (k k2 : String)
    (v : GEvent) (h : k2 ≠ k) : dmLookup (destMapInsert m k v) k2 = dmLookup m k2 := by
  unfold destMapInsert dmLookup
  split
  · rw [find?_map_replace_other m k k2 v h]
  · rw [List.find?_append]
    cases hf : List.find? (fun q => decide (q.1 = k2)) m with
    | some q => simp
    | none =>
      have : (decide ((k, v).1 = k2)) = false := by simp [Ne.symm h]
      simp [this]

theorem destMapStep_none (m : List (String × GEvent)) (ev : GEvent)
    (h : liveKey ev = none) : destMapStep m ev = m := by
  unfold destMapStep
  unfold liveKey at h
  split
  · rfl
  · next h1 =>
    rw [if_neg h1] at h
    split
    · next h2 => rw [if_pos h2] at h; cases h
    · rfl

theorem destMapStep_some (m : List (String × GEvent)) (ev : GEvent) (k : String)
    (h : liveKey ev = some k) : destMapStep m ev = destMapInsert m k ev := by
  unfold destMapStep
  unfold liveKey at h
  split
  · next h1 => rw [if_pos h1] at h; cases h
  · next h1 =>
    rw [if_neg h1] at h
    split
    · next h2 =>
      rw [if_pos h2] at h
      injection h with h
      rw [h]
    · next h2 => rw [if_neg h2] at h; cases h

theorem dmLookup_foldl (k : String) (evs : List GEvent) :
    ∀ acc : List (String × GEvent),
    dmLookup (List.foldl destMapStep acc evs) k =
      ((keyEvents evs k).getLast?).or (dmLookup acc k) := by
  induction evs with
  | nil => intro acc; simp [keyEvents]
  | cons e rest ih =>
    intro acc
    rw [List.foldl_cons, ih, keyEvents_cons]
    cases hlk : liveKey e with
    | none =>
      rw [destMapStep_none acc e hlk]
      simp
    | some k2 =>
      rw [destMapStep_some acc e k2 hlk]
      by_cases hk : k2 = k
      · subst hk
        rw [dmLookup_destMapInsert_self, if_pos rfl]
        cases hrest : keyEvents rest k2 with
        | nil => simp
        | cons w ws =>
          rw [List.getLast?_cons_cons]
          have h2 : (w :: ws).getLast?.isSome = true := by
            rw [List.getLast?_isSome]
            simp
          obtain ⟨z, hz⟩ := Option.isSome_iff_exists.mp h2
          rw [hz]
          rfl
      · have hne : ¬ (some k2 = some k) := by
          intro hc
          injection hc with hc
          exact hk hc
        rw [if_neg hne, dmLookup_destMapInsert_other acc k2 k e (fun h2 => hk h2.symm)]

theorem dmLookup_buildDestMap (evs : List GEvent) (k : String) :
    dmLookup (buildDestMap evs) k = (keyEvents evs k).getLast? := by
  unfold buildDestMap
  rw [dmLookup_foldl]
  simp [dmLookup]

theorem keyEvents_singleton {s : List GEvent} {k : String} {dm : GEvent}
    (hl : (s.filterMap liveKey).Nodup)
    (h : (keyEvents s k).getLast? = some dm) : keyEvents s k = [dm] := by
  have hle := keyEvents_length_le_one hl k
  cases hke : keyEvents s k with
  | nil => rw [hke] at h; cases h
  | cons w ws =>
    rw [hke] at h hle
    cases ws with
    | nil =>
      simp only [List.getLast?_singleton] at h
      injection h with h
      rw [h]
    | cons x xs => simp at hle

theorem keyEvents_filter_other (s : List GEvent) (q : GEvent → Bool) (k : String)
    (h : ∀ e ∈ keyEvents s k, q e = true) :
    keyEvents (s.filter q) k = keyEvents s k := by
  unfold keyEvents at h ⊢
  rw [List.filter_comm]
  exact List.filter_eq_self.mpr h

theorem keyEvents_map_liveKey (s : List GEvent) (f : GEvent → GEvent)
    (hf : ∀ e ∈ s, liveKey (f e) = liveKey e) (k : String) :
    keyEvents (s.map f) k = (keyEvents s k).map f := by
  induction s with
  | nil => rfl
  | cons e rest ih =>
    have hfe := hf e (List.mem_cons_self e rest)
    have hrest : ∀ e2 ∈ rest, liveKey (f e2) = liveKey e2 :=
      fun e2 h2 => hf e2 (List.mem_cons_of_mem e h2)
    rw [List.map_cons, keyEvents_cons, keyEvents_cons, hfe]
    split
    · rw [List.map_cons, ih hrest]
    · exact ih hrest

theorem find?_filter_of_imp {α} (r q : α → Bool) (l : List α)
    (h : ∀ x ∈ l, r x = true → q x = true) : (l.filter q).find? r = l.find? r := by
  induction l with
  | nil => rfl
  | cons x xs ih =>
    have hx := h x (List.mem_cons_self x xs)
    have hxs : ∀ y ∈ xs, r y = true → q y = true :=
      fun y hy => h y (List.mem_cons_of_mem x hy)
    rw [List.filter_cons]
    cases hq : q x with
    | true =>
      cases hr : r x with
      | true => simp [List.find?_cons, hq, hr]
      | false => simp [List.find?_cons, hq, hr, ih hxs]
    | false =>
      have hr : r x = false := by
        cases hr : r x with
        | true => exact absurd (hx hr) (by simp [hq])
        | false => rfl
      simp [hq, hr, List.find?_cons, ih hxs]

theorem find?_append_right_none {α} (r : α → Bool) (l : List α) (x : α) (hx : r x = false) :
    (l ++ [x]).find? r = l.find? r := by
  rw [List.find?_append]
  cases l.find? r <;> simp [List.find?_cons, hx]

theorem rowKeyMatches_ne_key {cfg sid k : String} {x : EventMapping} (hk : k ≠ sid)
    (hx : rowKeyMatches cfg sid x = true) : rowKeyMatches cfg k x = false := by
  unfold rowKeyMatches at hx ⊢
  simp only [Bool.and_eq_true, decide_eq_true_eq] at hx
  simp [hx.2, Ne.symm hk]

theorem find?_replaceFirstRow_other (cfg sid k : String) (m2 : EventMapping)
    (l : List EventMapping) (hk : k ≠ sid) (hm2 : rowKeyMatches cfg sid m2 = true) :
    (replaceFirstRow cfg sid m2 l).find? (rowKeyMatches cfg k) =
      l.find? (rowKeyMatches cfg k) := by
  induction l with
  | nil => rfl
  | cons m ms ih =>
    unfold replaceFirstRow
    split
    · next hm =>
      have h1 := rowKeyMatches_ne_key hk hm2
      have h2 := rowKeyMatches_ne_key hk hm
      simp [List.find?_cons, h1, h2]
    · next hm =>
      cases hr : rowKeyMatches cfg k m with
      | true => simp [List.find?_cons, hr]
      | false => simp [List.find?_cons, hr, ih]

theorem find?_removeFirstRow_other (cfg sid k : String) (l : List EventMapping)
    (hk : k ≠ sid) :
    (removeFirstRow cfg sid l).find? (rowKeyMatches cfg k) =
      l.find? (rowKeyMatches cfg k) := by
  induction l with
  | nil => rfl
  | cons m ms ih =>
    unfold removeFirstRow
    split
    · next hm =>
      have h2 := rowKeyMatches_ne_key hk hm
      simp [List.find?_cons, h2]
    · next hm =>
      cases hr : rowKeyMatches cfg k m with
      | true => simp [List.find?_cons, hr]
      | false => simp [List.find?_cons, hr, ih]

-- ## payload lemmas

theorem events_differ_canon (p : SyncParams) (src : GEvent) (c d o : Option String)
    (n : Nat) (e : GEvent) :
    events_differ (build_payload_from_source src c d p.destination_color_id o
      (some p.sync_config_id) p.privacy_mode_enabled p.privacy_placeholder_text n) e =
      events_differ (canonPayload p src) e := rfl

theorem events_differ_applyPayload (b : Payload) (i : String) (u : Nat) :
    events_differ b (applyPayload b i u) = false := by
  simp [events_differ, applyPayload]

theorem build_shared_source_id (src : GEvent) (c d col o g : Option String)
    (priv : Bool) (txt : String) (n : Nat) :
    (build_payload_from_source src c d col o g priv txt n).shared.source_id = src.id := by
  unfold build_payload_from_source
  dsimp only
  split <;> split <;> split <;> split <;> rfl

theorem liveKey_applyPayload_build (src : GEvent) (c d col o g : Option String)
    (priv : Bool) (txt : String) (n : Nat) (i : String) (u : Nat)
    (ht : truthy src.id = true) :
    liveKey (applyPayload (build_payload_from_source src c d col o g priv txt n) i u) =
      some (src.id.getD "") := by
  unfold liveKey applyPayload
  rw [if_neg (by simp)]
  dsimp only
  rw [build_shared_source_id, if_pos ht]

-- ## settledness

theorem Settled_frame (p : SyncParams) (store store2 : List GEvent)
    (rows rows2 : List EventMapping) (src : GEvent)
    (hs : Settled p store rows src)
    (hke : ∀ k, srcKey src = some k → keyEvents store2 k = keyEvents store k)
    (hfind : ∀ k, srcKey src = some k →
      rows2.find? (rowKeyMatches p.sync_config_id k) =
        rows.find? (rowKeyMatches p.sync_config_id k)) :
    Settled p store2 rows2 src := by
  rcases hs with h | h | h
  · exact .inl h
  · exact .inr (.inl h)
  · by_cases ht : truthy src.id = true
    · have hkey : srcKey src = some (src.id.getD "") := by unfold srcKey; rw [if_pos ht]
      have hlook : dmLookup (buildDestMap store2) (src.id.getD "") =
          dmLookup (buildDestMap store) (src.id.getD "") := by
        rw [dmLookup_buildDestMap, dmLookup_buildDestMap, hke _ hkey]
      refine .inr (.inr ?_)
      by_cases hc : src.status = some "cancelled"
      · rw [if_pos hc] at h ⊢
        rw [hlook]
        exact h
      · rw [if_neg hc] at h ⊢
        obtain ⟨dm, hdm, hid, hrest⟩ := h
        refine ⟨dm, by rw [hlook]; exact hdm, hid, ?_⟩
        rw [hfind _ hkey]
        exact hrest
    · exact .inl (by simpa using ht)

theorem stepEvent_of_settled (p : SyncParams) (store : List GEvent)
    (rows : List EventMapping) (remote : Remote) (src : GEvent)
    (c u d uu : Nat)
    (hs : Settled p store rows src) :
    ∃ uu2, stepEvent p (buildDestMap store) ⟨c, u, d, remote, rows, uu⟩ src =
      .ok ⟨c, u, d, remote, rows, uu2⟩ := by
  by_cases ht : truthy src.id = true
  swap
  · refine ⟨uu, ?_⟩
    unfold stepEvent
    rw [if_neg (by simpa using ht)]
  by_cases hsk : (should_skip_event src p.sync_config_id).1 = true
  · refine ⟨uu, ?_⟩
    unfold stepEvent
    rw [if_pos ht]
    simp only [hsk, if_true]
  rcases hs with h | h | h
  · rw [ht] at h; cases h
  · exact absurd h hsk
  · by_cases hc : src.status = some "cancelled"
    · rw [if_pos hc] at h
      refine ⟨uu, ?_⟩
      unfold stepEvent
      simp [ht, hsk, hc, h]
    · rw [if_neg hc] at h
      obtain ⟨dm, hdm, hid, hrest⟩ := h
      obtain ⟨i, hi⟩ := Option.isSome_iff_exists.mp hid
      by_cases hcs : conflictSkip src dm
          (rows.find? (rowKeyMatches p.sync_config_id (src.id.getD "")))
          p.source_calendar_id = true
      · refine ⟨(match rows.find? (rowKeyMatches p.sync_config_id (src.id.getD "")) with
          | some _ => uu | none => uu + 1), ?_⟩
        unfold stepEvent
        simp [ht, hsk, hc, hdm, hi, hcs]
      · have hdiff : events_differ (canonPayload p src) dm = false := by
          rcases hrest with h1 | h1
          · exact absurd h1 hcs
          · exact h1
        refine ⟨(match rows.find? (rowKeyMatches p.sync_config_id (src.id.getD "")) with
          | some _ => uu | none => uu + 1), ?_⟩
        unfold stepEvent
        simp [ht, hsk, hc, hdm, hi, hcs, events_differ_canon, hdiff]

theorem foldSync_noop (p : SyncParams) (store : List GEvent) (rows : List EventMapping)
    (remote : Remote) :
    ∀ (srcs : List GEvent) (c u d uu : Nat),
    (∀ src ∈ srcs, Settled p store rows src) →
    ∃ uu2, foldSync p (buildDestMap store) ⟨c, u, d, remote, rows, uu⟩ srcs =
      .ok ⟨c, u, d, remote, rows, uu2⟩ := by
  intro srcs
  induction srcs with
  | nil => exact fun c u d uu _ => ⟨uu, rfl⟩
  | cons s rest ih =>
    intro c u d uu hall
    obtain ⟨uu1, h1⟩ := stepEvent_of_settled p store rows remote s c u d uu
      (hall s (List.mem_cons_self s rest))
    obtain ⟨uu2, h2⟩ := ih c u d uu1 (fun x hx => hall x (List.mem_cons_of_mem s hx))
    refine ⟨uu2, ?_⟩
    unfold foldSync
    rw [h1]
    exact h2

-- ## driver equations for the remote operations under WF

theorem srcKey_eq_some {src : GEvent} {k : String} (h : srcKey src = some k) :
    truthy src.id = true ∧ src.id.getD "" = k := by
  unfold srcKey at h
  split at h
  · next ht => injection h with h; exact ⟨ht, h⟩
  · cases h

theorem keyEvents_filter (s : List GEvent) (q : GEvent → Bool) (k : String) :
    keyEvents (s.filter q) k = (keyEvents s k).filter q := by
  unfold keyEvents
  rw [List.filter_comm]

theorem deleteEvent_eq_ok {r : Remote} {id : String}
    (hfail : r.failIds = [])
    (hany : r.store.any (fun e => decide (e.id = some id)) = true) :
    deleteEvent r id =
      (none, { r with store := r.store.filter (fun e => decide (e.id ≠ some id)) }) := by
  unfold deleteEvent
  rw [hfail]
  rw [if_neg (by simp), if_pos hany]

theorem updateEvent_eq_ok {r : Remote} {id : String} {b : Payload}
    (hfail : r.failIds = [])
    (hany : r.store.any (fun e => decide (e.id = some id)) = true) :
    updateEvent r id b = .ok (applyPayload b id r.nextUpd,
      { r with
          store := r.store.map (fun e => if e.id = some id then applyPayload b id r.nextUpd else e)
          nextUpd := r.nextUpd + 1 }) := by
  unfold updateEvent
  rw [hfail]
  rw [if_neg (by simp), if_pos hany]

theorem insertEvent_eq_ok {r : Remote} {b : Payload} (hf : r.insertFault = none) :
    insertEvent r b = .ok (applyPayload b (genId r.nextId) r.nextUpd,
      { r with
          store := r.store ++ [applyPayload b (genId r.nextId) r.nextUpd]
          nextId := r.nextId + 1
          nextUpd := r.nextUpd + 1 }) := by
  unfold insertEvent
  rw [hf]

theorem rowKeyMatches_updatedMapping (p : SyncParams) (src : GEvent) (m : EventMapping)
    (origin : String) (resUpd : Nat) (cfg sid : String) :
    rowKeyMatches cfg sid (updatedMapping p src m origin resUpd) =
      rowKeyMatches cfg sid m := by
  unfold rowKeyMatches updatedMapping
  simp only []

theorem rowKeyMatches_newMapping (p : SyncParams) (src : GEvent)
    (srcId cluster origin destId : String) (resUpd : Nat) (cfg k2 : String)
    (hk : k2 ≠ srcId) :
    rowKeyMatches cfg k2 (newMapping p src srcId cluster origin destId resUpd) = false := by
  unfold rowKeyMatches newMapping
  have h1 : decide (srcId = k2) = false := by
    simp only [decide_eq_false_iff_not]
    exact fun h => hk h.symm
  simp [h1]

theorem filterMap_map_congr {α β : Type} (l : List α) (f : α → α) (g : α → Option β)
    (h : ∀ e ∈ l, g (f e) = g e) : (l.map f).filterMap g = l.filterMap g := by
  induction l with
  | nil => rfl
  | cons a rest ih =>
    rw [List.map_cons, List.filterMap_cons, List.filterMap_cons,
      h a (List.mem_cons_self a rest)]
    have ihr := ih (fun e he => h e (List.mem_cons_of_mem a he))
    cases g a with
    | none => exact ihr
    | some b => rw [ihr]

theorem map_eq_self_of_mem {α : Type} (l : List α) (f : α → α)
    (h : ∀ e ∈ l, f e = e) : l.map f = l := by
  induction l with
  | nil => rfl
  | cons a rest ih =>
    rw [List.map_cons, h a (List.mem_cons_self a rest),
      ih (fun e he => h e (List.mem_cons_of_mem a he))]

theorem getLast?_eq_none_iff {α : Type} (l : List α) : l.getLast? = none ↔ l = [] := by
  cases l with
  | nil => simp
  | cons a rest =>
    constructor
    · intro h
      have h2 : (a :: rest).getLast?.isSome = true := by
        rw [List.getLast?_isSome]
        simp
      rw [h] at h2
      cases h2
    · intro h; cases h

section Run1Section

attribute [local irreducible] compute_content_hash build_payload_from_source

set_option maxHeartbeats 1000000 in
theorem update_write_facts (p : SyncParams) (st : LoopState) (src dm : GEvent)
    (dmid : String) (c o : Option String) (ev : GEvent) (store2 : List GEvent)
    (hwf : StoreWF st.remote) (ht : truthy src.id = true)
    (hc : ¬ src.status = some "cancelled")
    (hsing : keyEvents st.remote.store (src.id.getD "") = [dm])
    (hdmid : dm.id = some dmid)
    (hev : ev = applyPayload (build_payload_from_source src c (some dmid)
      p.destination_color_id o (some p.sync_config_id)
      p.privacy_mode_enabled p.privacy_placeholder_text p.now) dmid st.remote.nextUpd)
    (hstore2 : store2 = st.remote.store.map
      (fun e => if e.id = some dmid then ev else e)) :
    (∀ k2, src.id.getD "" ≠ k2 → keyEvents store2 k2 = keyEvents st.remote.store k2) ∧
    StoreWF { st.remote with store := store2, nextUpd := st.remote.nextUpd + 1 } ∧
    (∀ rows2, Settled p store2 rows2 src) := by
  have hdmmem : dm ∈ st.remote.store ∧ liveKey dm = some (src.id.getD "") :=
    keyEvents_mem (by rw [hsing]; exact List.mem_singleton.mpr rfl)
  have hevlk : liveKey ev = some (src.id.getD "") := by
    rw [hev]; exact liveKey_applyPayload_build src _ _ _ _ _ _ _ _ _ _ ht
  have hevid : ev.id = some dmid := by rw [hev]; rfl
  have hid_pt : ∀ e ∈ st.remote.store,
      (if e.id = some dmid then ev else e).id = e.id := by
    intro e he
    split
    · next heq => rw [hevid, heq]
    · rfl
  have hlk_pt : ∀ e ∈ st.remote.store,
      liveKey (if e.id = some dmid then ev else e) = liveKey e := by
    intro e he
    split
    · next heq =>
      have he2 : e = dm := id_unique hwf.idsNodup he hdmmem.1 heq hdmid
      rw [hevlk, he2, hdmmem.2]
    · rfl
  have hke : keyEvents store2 (src.id.getD "") = [ev] := by
    rw [hstore2, keyEvents_map_liveKey _ _ hlk_pt, hsing, List.map_cons, List.map_nil,
      hdmid]
    simp
  refine ⟨?_, ?_, ?_⟩
  · intro k2 hne
    rw [hstore2, keyEvents_map_liveKey _ _ hlk_pt]
    apply map_eq_self_of_mem
    intro e he
    obtain ⟨hes, helk⟩ := keyEvents_mem he
    have hnid : ¬ e.id = some dmid := by
      intro heq
      have he2 : e = dm := id_unique hwf.idsNodup hes hdmmem.1 heq hdmid
      rw [he2, hdmmem.2] at helk
      exact hne (by injection helk)
    rw [if_neg hnid]
  · constructor
    · intro e2 he2
      rw [hstore2] at he2
      obtain ⟨e, he, hfe⟩ := List.mem_map.mp he2
      rw [← hfe, hid_pt e he]
      exact hwf.haveIds e he
    · show (store2.filterMap GEvent.id).Nodup
      rw [hstore2, filterMap_map_congr _ _ _ hid_pt]
      exact hwf.idsNodup
    · show (store2.filterMap liveKey).Nodup
      rw [hstore2, filterMap_map_congr _ _ _ hlk_pt]
      exact hwf.liveNodup
    · intro e2 he2 n hn
      rw [hstore2] at he2
      obtain ⟨e, he, hfe⟩ := List.mem_map.mp he2
      rw [← hfe]
      show ¬ (if e.id = some dmid then ev else e).id = some (genId n)
      rw [hid_pt e he]
      exact hwf.fresh e he n hn
    · exact hwf.nofail
    · exact hwf.noInsFault
  · intro rows2
    refine .inr (.inr ?_)
    rw [if_neg hc]
    refine ⟨ev, ?_, by rw [hevid]; rfl, .inr ?_⟩
    · rw [dmLookup_buildDestMap, hke]
      rfl
    · rw [hev, ← events_differ_canon p src c (some dmid) o p.now]
      exact events_differ_applyPayload _ _ _


set_option maxHeartbeats 1000000 in
theorem stepEvent_run1 (p : SyncParams) (s0 : List GEvent) (st : LoopState) (src : GEvent)
    (hwf : StoreWF st.remote)
    (hframe : ∀ k, srcKey src = some k → keyEvents st.remote.store k = keyEvents s0 k) :
    ∃ st2, stepEvent p (buildDestMap s0) st src = .ok st2 ∧
      StoreWF st2.remote ∧
      Settled p st2.remote.store st2.rows src ∧
      (∀ k2, srcKey src ≠ some k2 →
        keyEvents st2.remote.store k2 = keyEvents st.remote.store k2 ∧
        st2.rows.find? (rowKeyMatches p.sync_config_id k2) =
          st.rows.find? (rowKeyMatches p.sync_config_id k2)) := by
  by_cases ht : truthy src.id = true
  swap
  · refine ⟨st, ?_, hwf, .inl (by simpa using ht), fun k2 _ => ⟨rfl, rfl⟩⟩
    unfold stepEvent
    rw [if_neg (by simpa using ht)]
  have hkey : srcKey src = some (src.id.getD "") := by unfold srcKey; rw [if_pos ht]
  have hframe1 : keyEvents st.remote.store (src.id.getD "") =
      keyEvents s0 (src.id.getD "") := hframe _ hkey
  by_cases hsk : (should_skip_event src p.sync_config_id).1 = true
  · refine ⟨st, ?_, hwf, .inr (.inl hsk), fun k2 _ => ⟨rfl, rfl⟩⟩
    unfold stepEvent
    rw [if_pos ht]
    simp only [hsk, if_true]
  by_cases hc : src.status = some "cancelled"
  · cases hget : (keyEvents s0 (src.id.getD "")).getLast? with
    | none =>
      have hdm : dmLookup (buildDestMap s0) (src.id.getD "") = none := by
        rw [dmLookup_buildDestMap]; exact hget
      refine ⟨st, ?_, hwf, ?_, fun k2 _ => ⟨rfl, rfl⟩⟩
      · unfold stepEvent
        simp [ht, hsk, hc, hdm]
      · refine .inr (.inr ?_)
        rw [if_pos hc, dmLookup_buildDestMap, hframe1]
        exact hget
    | some dm =>
      have hgetst : (keyEvents st.remote.store (src.id.getD "")).getLast? = some dm := by
        rw [hframe1]; exact hget
      have hsing : keyEvents st.remote.store (src.id.getD "") = [dm] :=
        keyEvents_singleton hwf.liveNodup hgetst
      have hdmmem : dm ∈ st.remote.store ∧ liveKey dm = some (src.id.getD "") :=
        keyEvents_mem (by rw [hsing]; exact List.mem_singleton.mpr rfl)
      obtain ⟨dmid, hdmid⟩ := Option.isSome_iff_exists.mp (hwf.haveIds dm hdmmem.1)
      have hdm : dmLookup (buildDestMap s0) (src.id.getD "") = some dm := by
        rw [dmLookup_buildDestMap]; exact hget
      have hany : st.remote.store.any (fun e => decide (e.id = some dmid)) = true :=
        List.any_eq_true.mpr ⟨dm, hdmmem.1, by simp [hdmid]⟩
      have hdel := deleteEvent_eq_ok hwf.nofail hany
      refine ⟨{ st with
                  deleted := st.deleted + 1
                  remote := { st.remote with
                    store := st.remote.store.filter (fun e => decide (e.id ≠ some dmid)) }
                  rows := st.rows.filter
                    (fun m => !rowKeyMatches p.sync_config_id (src.id.getD "") m) },
        ?_, ?_, ?_, ?_⟩
      · unfold stepEvent
        simp [ht, hsk, hc, hdm, hdmid, hdel]
      · exact {
          haveIds := fun e he => hwf.haveIds e (List.mem_of_mem_filter he)
          idsNodup := hwf.idsNodup.sublist ((List.filter_sublist _).filterMap _)
          liveNodup := hwf.liveNodup.sublist ((List.filter_sublist _).filterMap _)
          fresh := fun e he n hn => hwf.fresh e (List.mem_of_mem_filter he) n hn
          nofail := hwf.nofail
          noInsFault := hwf.noInsFault }
      · refine .inr (.inr ?_)
        rw [if_pos hc, dmLookup_buildDestMap]
        have : keyEvents
            (st.remote.store.filter (fun e => decide (e.id ≠ some dmid)))
            (src.id.getD "") = [] := by
          rw [keyEvents_filter, hsing]
          simp [hdmid]
        rw [this]
        rfl
      · intro k2 h2
        have hne : src.id.getD "" ≠ k2 := fun h => h2 (by rw [← h]; exact hkey)
        constructor
        · rw [keyEvents_filter]
          apply List.filter_eq_self.mpr
          intro e he
          obtain ⟨hes, helk⟩ := keyEvents_mem he
          simp only [decide_eq_true_eq]
          intro hid
          have : e = dm := id_unique hwf.idsNodup hes hdmmem.1 hid hdmid
          rw [this, hdmmem.2] at helk
          exact hne (by injection helk)
        · apply find?_filter_of_imp
          intro x _ hx
          rw [rowKeyMatches_ne_key hne hx]
          rfl
  · -- live event
    cases hget : (keyEvents s0 (src.id.getD "")).getLast? with
    | none =>
      -- no destination match: insert
      have hdm : dmLookup (buildDestMap s0) (src.id.getD "") = none := by
        rw [dmLookup_buildDestMap]; exact hget
      have hnil : keyEvents st.remote.store (src.id.getD "") = [] := by
        rw [hframe1]
        exact (getLast?_eq_none_iff _).mp hget
      have hins := insertEvent_eq_ok (r := st.remote)
        (b := build_payload_from_source src
          (some (match st.rows.find? (rowKeyMatches p.sync_config_id (src.id.getD "")) with
            | some m => m.sync_cluster_id
            | none => uuidStr st.nextUuid)) none
          p.destination_color_id
          (some (get_origin_calendar_id src
            (st.rows.find? (rowKeyMatches p.sync_config_id (src.id.getD "")))
            p.source_calendar_id))
          (some p.sync_config_id)
          p.privacy_mode_enabled p.privacy_placeholder_text p.now) hwf.noInsFault
      refine ⟨{ st with
                  created := st.created + 1
                  remote := { st.remote with
                    store := st.remote.store ++
                      [applyPayload (build_payload_from_source src
                        (some (match st.rows.find?
                            (rowKeyMatches p.sync_config_id (src.id.getD "")) with
                          | some m => m.sync_cluster_id
                          | none => uuidStr st.nextUuid)) none
                        p.destination_color_id
                        (some (get_origin_calendar_id src
                          (st.rows.find? (rowKeyMatches p.sync_config_id (src.id.getD "")))
                          p.source_calendar_id))
                        (some p.sync_config_id)
                        p.privacy_mode_enabled p.privacy_placeholder_text p.now)
                        (genId st.remote.nextId) st.remote.nextUpd]
                    nextId := st.remote.nextId + 1
                    nextUpd := st.remote.nextUpd + 1 }
                  rows := st.rows ++
                    [newMapping p src (src.id.getD "")
                      (match st.rows.find? (rowKeyMatches p.sync_config_id (src.id.getD "")) with
                        | some m => m.sync_cluster_id
                        | none => uuidStr st.nextUuid)
                      (get_origin_calendar_id src
                        (st.rows.find? (rowKeyMatches p.sync_config_id (src.id.getD "")))
                        p.source_calendar_id)
                      (genId st.remote.nextId) st.remote.nextUpd]
                  nextUuid := match st.rows.find?
                      (rowKeyMatches p.sync_config_id (src.id.getD "")) with
                    | some _ => st.nextUuid
                    | none => st.nextUuid + 1 },
        ?_, ?_, ?_, ?_⟩
      · unfold stepEvent
        simp [ht, hsk, hc, hdm, hins, applyPayload]
      · constructor
        · intro e he
          rcases List.mem_append.mp he with he | he
          · exact hwf.haveIds e he
          · rw [List.mem_singleton.mp he]; rfl
        · rw [List.filterMap_append]
          rw [List.nodup_append]
          refine ⟨hwf.idsNodup, by simp [applyPayload], ?_⟩
          intro a ha hb
          simp only [List.filterMap_cons, List.filterMap_nil, applyPayload] at hb
          have hab : a = genId st.remote.nextId := by
            simpa using hb
          obtain ⟨e, he, heid⟩ := List.mem_filterMap.mp ha
          exact hwf.fresh e he st.remote.nextId (Nat.le_refl _) (by rw [heid, hab])
        · rw [List.filterMap_append]
          rw [List.nodup_append]
          have hlive : liveKey (applyPayload (build_payload_from_source src
              (some (match st.rows.find? (rowKeyMatches p.sync_config_id (src.id.getD "")) with
                | some m => m.sync_cluster_id
                | none => uuidStr st.nextUuid)) none
              p.destination_color_id
              (some (get_origin_calendar_id src
                (st.rows.find? (rowKeyMatches p.sync_config_id (src.id.getD "")))
                p.source_calendar_id))
              (some p.sync_config_id)
              p.privacy_mode_enabled p.privacy_placeholder_text p.now)
              (genId st.remote.nextId) st.remote.nextUpd) = some (src.id.getD "") :=
            liveKey_applyPayload_build src _ _ _ _ _ _ _ _ _ _ ht
          refine ⟨hwf.liveNodup, by simp [List.filterMap_cons, hlive], ?_⟩
          intro a ha hb
          simp only [List.filterMap_cons, hlive, List.filterMap_nil] at hb
          have hab : a = src.id.getD "" := by simpa using hb
          rw [hab] at ha
          exact ((mem_filterMap_liveKey _ _).mp ha) hnil
        · intro e he n hn
          rcases List.mem_append.mp he with he | he
          · exact hwf.fresh e he n (Nat.le_of_succ_le hn)
          · rw [List.mem_singleton.mp he]
            intro hcontra
            simp only [applyPayload] at hcontra
            have : st.remote.nextId = n := genId_inj (by injection hcontra)
            rw [this] at hn
            exact Nat.not_succ_le_self n hn
        · exact hwf.nofail
        · exact hwf.noInsFault
      · refine .inr (.inr ?_)
        rw [if_neg hc]
        refine ⟨applyPayload (build_payload_from_source src
            (some (match st.rows.find? (rowKeyMatches p.sync_config_id (src.id.getD "")) with
              | some m => m.sync_cluster_id
              | none => uuidStr st.nextUuid)) none
            p.destination_color_id
            (some (get_origin_calendar_id src
              (st.rows.find? (rowKeyMatches p.sync_config_id (src.id.getD "")))
              p.source_calendar_id))
            (some p.sync_config_id)
            p.privacy_mode_enabled p.privacy_placeholder_text p.now)
            (genId st.remote.nextId) st.remote.nextUpd, ?_, rfl, .inr ?_⟩
        · rw [dmLookup_buildDestMap, keyEvents_append, hnil, List.nil_append,
            keyEvents_cons]
          rw [if_pos (liveKey_applyPayload_build src _ _ _ _ _ _ _ _ _ _ ht)]
          rfl
        · rw [← events_differ_canon p src
            (some (match st.rows.find? (rowKeyMatches p.sync_config_id (src.id.getD "")) with
              | some m => m.sync_cluster_id
              | none => uuidStr st.nextUuid)) none
            (some (get_origin_calendar_id src
              (st.rows.find? (rowKeyMatches p.sync_config_id (src.id.getD "")))
              p.source_calendar_id)) p.now]
          exact events_differ_applyPayload _ _ _
      · intro k2 h2
        have hne : src.id.getD "" ≠ k2 := fun h => h2 (by rw [← h]; exact hkey)
        constructor
        · rw [keyEvents_append, keyEvents_cons]
          rw [if_neg (by
            rw [liveKey_applyPayload_build src _ _ _ _ _ _ _ _ _ _ ht]
            exact fun h => hne (by injection h))]
          simp [keyEvents]
        · exact find?_append_right_none _ _ _
            (rowKeyMatches_newMapping p src _ _ _ _ _ _ _ (Ne.symm hne))
    | some dm =>
      -- destination match present
      have hgetst : (keyEvents st.remote.store (src.id.getD "")).getLast? = some dm := by
        rw [hframe1]; exact hget
      have hsing : keyEvents st.remote.store (src.id.getD "") = [dm] :=
        keyEvents_singleton hwf.liveNodup hgetst
      have hdmmem : dm ∈ st.remote.store ∧ liveKey dm = some (src.id.getD "") :=
        keyEvents_mem (by rw [hsing]; exact List.mem_singleton.mpr rfl)
      obtain ⟨dmid, hdmid⟩ := Option.isSome_iff_exists.mp (hwf.haveIds dm hdmmem.1)
      have hdm : dmLookup (buildDestMap s0) (src.id.getD "") = some dm := by
        rw [dmLookup_buildDestMap]; exact hget
      have hlookst : dmLookup (buildDestMap st.remote.store) (src.id.getD "") = some dm := by
        rw [dmLookup_buildDestMap]; exact hgetst
      by_cases hcs : conflictSkip src dm
          (st.rows.find? (rowKeyMatches p.sync_config_id (src.id.getD "")))
          p.source_calendar_id = true
      · refine ⟨{ st with
            nextUuid := match st.rows.find?
                (rowKeyMatches p.sync_config_id (src.id.getD "")) with
              | some _ => st.nextUuid
              | none => st.nextUuid + 1 }, ?_, hwf, ?_, fun k2 _ => ⟨rfl, rfl⟩⟩
        · unfold stepEvent
          simp [ht, hsk, hc, hdm, hdmid, hcs]
        · refine .inr (.inr ?_)
          rw [if_neg hc]
          exact ⟨dm, hlookst, by rw [hdmid]; rfl, .inl hcs⟩
      · by_cases hdiff : events_differ (canonPayload p src) dm = true
        swap
        · -- payloads compare equal: no-op
          have hdiff' : events_differ (canonPayload p src) dm = false := by
            cases h : events_differ (canonPayload p src) dm
            · rfl
            · exact absurd h hdiff
          refine ⟨{ st with
              nextUuid := match st.rows.find?
                  (rowKeyMatches p.sync_config_id (src.id.getD "")) with
                | some _ => st.nextUuid
                | none => st.nextUuid + 1 }, ?_, hwf, ?_, fun k2 _ => ⟨rfl, rfl⟩⟩
          · unfold stepEvent
            simp [ht, hsk, hc, hdm, hdmid, hcs, events_differ_canon, hdiff']
          · refine .inr (.inr ?_)
            rw [if_neg hc]
            exact ⟨dm, hlookst, by rw [hdmid]; rfl, .inr hdiff'⟩
        · -- update path
          have hany : st.remote.store.any (fun e => decide (e.id = some dmid)) = true :=
            List.any_eq_true.mpr ⟨dm, hdmmem.1, by simp [hdmid]⟩
          have hupd := @updateEvent_eq_ok st.remote dmid
            (build_payload_from_source src
              (some (match st.rows.find? (rowKeyMatches p.sync_config_id (src.id.getD "")) with
                | some m => m.sync_cluster_id
                | none => uuidStr st.nextUuid)) (some dmid)
              p.destination_color_id
              (some (get_origin_calendar_id src
                (st.rows.find? (rowKeyMatches p.sync_config_id (src.id.getD "")))
                p.source_calendar_id))
              (some p.sync_config_id)
              p.privacy_mode_enabled p.privacy_placeholder_text p.now)
            hwf.nofail hany
          cases hmap : st.rows.find? (rowKeyMatches p.sync_config_id (src.id.getD "")) with
          | none =>
            simp only [hmap] at hupd hcs
            obtain ⟨hkfr, hwf2, hset⟩ := update_write_facts p st src dm dmid
              (some (uuidStr st.nextUuid))
              (some (get_origin_calendar_id src none p.source_calendar_id))
              _ _ hwf ht hc hsing hdmid rfl rfl
            refine ⟨{ st with
                updated := st.updated + 1
                remote := { st.remote with
                  store := st.remote.store.map (fun e => if e.id = some dmid then
                    applyPayload (build_payload_from_source src (some (uuidStr st.nextUuid))
                      (some dmid) p.destination_color_id
                      (some (get_origin_calendar_id src none p.source_calendar_id))
                      (some p.sync_config_id)
                      p.privacy_mode_enabled p.privacy_placeholder_text p.now)
                      dmid st.remote.nextUpd else e)
                  nextUpd := st.remote.nextUpd + 1 }
                nextUuid := st.nextUuid + 1 }, ?_, hwf2, hset _, ?_⟩
            · unfold stepEvent
              simp [ht, hsk, hc, hdm, hdmid, hmap, conflictSkip, events_differ_canon,
                hdiff, hupd, applyPayload]
            · intro k2 h2
              have hne : src.id.getD "" ≠ k2 := fun h => h2 (by rw [← h]; exact hkey)
              exact ⟨hkfr k2 hne, rfl⟩
          | some m =>
            simp only [hmap] at hupd hcs
            obtain ⟨hkfr, hwf2, hset⟩ := update_write_facts p st src dm dmid
              (some m.sync_cluster_id)
              (some (get_origin_calendar_id src (some m) p.source_calendar_id))
              _ _ hwf ht hc hsing hdmid rfl rfl
            have hm := List.find?_some hmap
            refine ⟨{ st with
                updated := st.updated + 1
                remote := { st.remote with
                  store := st.remote.store.map (fun e => if e.id = some dmid then
                    applyPayload (build_payload_from_source src (some m.sync_cluster_id)
                      (some dmid) p.destination_color_id
                      (some (get_origin_calendar_id src (some m) p.source_calendar_id))
                      (some p.sync_config_id)
                      p.privacy_mode_enabled p.privacy_placeholder_text p.now)
                      dmid st.remote.nextUpd else e)
                  nextUpd := st.remote.nextUpd + 1 }
                rows := replaceFirstRow p.sync_config_id (src.id.getD "")
                  (updatedMapping p src m
                    (get_origin_calendar_id src (some m) p.source_calendar_id)
                    st.remote.nextUpd) st.rows
                nextUuid := st.nextUuid }, ?_, hwf2, hset _, ?_⟩
            · unfold stepEvent
              simp [ht, hsk, hc, hdm, hdmid, hmap, events_differ_canon,
                hdiff, hcs, hupd, applyPayload]
            · intro k2 h2
              have hne : src.id.getD "" ≠ k2 := fun h => h2 (by rw [← h]; exact hkey)
              refine ⟨hkfr k2 hne, ?_⟩
              apply find?_replaceFirstRow_other
              · exact Ne.symm hne
              · rw [rowKeyMatches_updatedMapping]
                exact hm

theorem foldSync_run1 (p : SyncParams) (s0 : List GEvent) :
    ∀ (srcs : List GEvent) (st : LoopState),
    StoreWF st.remote →
    (srcs.filterMap srcKey).Nodup →
    (∀ k ∈ srcs.filterMap srcKey, keyEvents st.remote.store k = keyEvents s0 k) →
    ∃ st2, foldSync p (buildDestMap s0) st srcs = .ok st2 ∧
      StoreWF st2.remote ∧
      (∀ src ∈ srcs, Settled p st2.remote.store st2.rows src) ∧
      (∀ k2, k2 ∉ srcs.filterMap srcKey →
        keyEvents st2.remote.store k2 = keyEvents st.remote.store k2 ∧
        st2.rows.find? (rowKeyMatches p.sync_config_id k2) =
          st.rows.find? (rowKeyMatches p.sync_config_id k2)) := by
  intro srcs
  induction srcs with
  | nil =>
    intro st hwf _ _
    exact ⟨st, rfl, hwf, by simp, fun k2 _ => ⟨rfl, rfl⟩⟩
  | cons s rest ih =>
    intro st hwf hnd hkeys
    have hmem_cons : ∀ k ∈ rest.filterMap srcKey, k ∈ (s :: rest).filterMap srcKey := by
      intro k hk
      rw [List.filterMap_cons]
      cases hsx : srcKey s with
      | none => exact hk
      | some k3 => exact List.mem_cons_of_mem _ hk
    have hmem_head : ∀ k, srcKey s = some k → k ∈ (s :: rest).filterMap srcKey := by
      intro k hk
      rw [List.filterMap_cons, hk]
      exact List.mem_cons_self _ _
    have hnd_rest : (rest.filterMap srcKey).Nodup := by
      rw [List.filterMap_cons] at hnd
      cases hsx : srcKey s with
      | none => rw [hsx] at hnd; exact hnd
      | some k => rw [hsx] at hnd; exact (List.nodup_cons.mp hnd).2
    have hnotin : ∀ k, srcKey s = some k → k ∉ rest.filterMap srcKey := by
      intro k hk
      rw [List.filterMap_cons, hk] at hnd
      exact (List.nodup_cons.mp hnd).1
    obtain ⟨st1, hstep, hwf1, hsettled1, hfr1⟩ := stepEvent_run1 p s0 st s hwf
      (fun k hk => hkeys k (hmem_head k hk))
    obtain ⟨st2, hfold, hwf2, hsettled2, hfr2⟩ := ih st1 hwf1 hnd_rest
      (fun k hk => by
        have hks : srcKey s ≠ some k := fun hc => hnotin k hc hk
        rw [(hfr1 k hks).1]
        exact hkeys k (hmem_cons k hk))
    refine ⟨st2, ?_, hwf2, ?_, ?_⟩
    · unfold foldSync
      rw [hstep]
      exact hfold
    · intro x hx
      rcases List.mem_cons.mp hx with rfl | hxr
      · apply Settled_frame p st1.remote.store st2.remote.store st1.rows st2.rows x hsettled1
        · intro k hk
          exact (hfr2 k (hnotin k hk)).1
        · intro k hk
          exact (hfr2 k (hnotin k hk)).2
      · exact hsettled2 x hxr
    · intro k2 hk2
      have hks : srcKey s ≠ some k2 := fun hc => hk2 (hmem_head k2 hc)
      have hk2r : k2 ∉ rest.filterMap srcKey := fun hc => hk2 (hmem_cons k2 hc)
      exact ⟨by rw [(hfr2 k2 hk2r).1, (hfr1 k2 hks).1],
        by rw [(hfr2 k2 hk2r).2, (hfr1 k2 hks).2]⟩

theorem Settled_now (p : SyncParams) (n2 : Nat) (store : List GEvent)
    (rows : List EventMapping) (src : GEvent) :
    Settled { p with now := n2 } store rows src ↔ Settled p store rows src := Iff.rfl

/-- C1 (amended): reconciliation is idempotent on well-formed states.
If the destination remote is consistent (`RemoteWF`: the fetched snapshot
reflects the store, every stored event carries an id, ids are pairwise
distinct, at most one live destination event is tagged with any given source
id, and no server faults are injected) and the source snapshot carries no
duplicate processable ids, then the first run succeeds, and a second run
over the same source snapshot — re-fetching the destination and starting
from the committed mapping rows, at any later clock reading and uuid seed —
returns zero created, zero updated and zero deleted, leaving the remote
store and the mapping rows untouched. -/
theorem claim_C1_idempotence (p : SyncParams) (n2 : Nat) (srcs : List GEvent)
    (r : Remote) (db : List EventMapping) (uu uu2 : Nat)
    (hwf : RemoteWF r)
    (hnd : (srcs.filterMap srcKey).Nodup) :
    ∃ res1, sync_calendars p srcs r db uu = .ok res1 ∧
      sync_calendars { p with now := n2 } srcs (refetch res1.remote) res1.db uu2 =
        .ok ⟨0, 0, 0, refetch res1.remote, res1.db⟩ := by
  obtain ⟨st2, hfold, hwf2, hsettled, hfr⟩ := foldSync_run1 p r.listed srcs
    ⟨0, 0, 0, r, db, uu⟩ hwf.toStoreWF hnd (fun k _ => by rw [hwf.snap])
  refine ⟨⟨st2.created, st2.updated, st2.deleted, st2.remote, st2.rows⟩, ?_, ?_⟩
  · unfold sync_calendars
    simp only []
    rw [hfold]
  · obtain ⟨uu3, hnoop⟩ := foldSync_noop { p with now := n2 } st2.remote.store st2.rows
      (refetch st2.remote) srcs 0 0 0 uu2
      (fun src hs => (Settled_now p n2 _ _ src).mpr (hsettled src hs))
    unfold sync_calendars
    simp only []
    have hlist : (refetch st2.remote).listed = st2.remote.store := rfl
    rw [hlist, hnoop]

end Run1Section

/-- Counterexample for C1 as stated (unconditional idempotence): with an
empty destination and a source snapshot carrying a confirmed and a
cancelled copy of the same event id, the first run inserts a destination
copy — the cancelled duplicate still consults the pre-run destination
index (`dest_map` is built once, before the loop) and is a no-op — and the
second run, whose re-fetched index now holds the copy, deletes it: the
second run's counts are not all zero although no source-side change
happened between the runs. -/
theorem claim_C1_counterexample :
    ∃ (p : SyncParams) (srcs : List GEvent) (r : Remote) (db : List EventMapping)
      (uu uu2 : Nat) (res1 : SyncResult),
      sync_calendars p srcs r db uu = .ok res1 ∧
      ∃ res2, sync_calendars p srcs (refetch res1.remote) res1.db uu2 = .ok res2 ∧
        ¬ (res2.created = 0 ∧ res2.updated = 0 ∧ res2.deleted = 0) := by
  refine ⟨⟨"cfg", "A", "B", none, false, "T", 3⟩,
    [{ id := some "s1", status := some "confirmed", updated := some 5 },
     { id := some "s1", status := some "cancelled", updated := some 6 }],
    ⟨[], [], 0, 0, [], none⟩, [], 0, 0, _, rfl, _, rfl, ?_⟩
  decide

/-- Witness for C1: a single confirmed source event against an empty,
consistent destination; the first run succeeds and the second run reports
zero creates, updates and deletes and leaves the remote and the mapping
rows unchanged. -/
theorem claim_C1_idempotence_witness :
    ∃ res1, sync_calendars ⟨"cfg", "A", "B", none, false, "T", 3⟩
        [{ id := some "s1", status := some "confirmed", updated := some 5 }]
        ⟨[], [], 0, 0, [], none⟩ [] 0 = .ok res1 ∧
      sync_calendars ⟨"cfg", "A", "B", none, false, "T", 9⟩
        [{ id := some "s1", status := some "confirmed", updated := some 5 }]
        (refetch res1.remote) res1.db 7 =
        .ok ⟨0, 0, 0, refetch res1.remote, res1.db⟩ :=
  claim_C1_idempotence ⟨"cfg", "A", "B", none, false, "T", 3⟩ 9
    [{ id := some "s1", status := some "confirmed", updated := some 5 }]
    ⟨[], [], 0, 0, [], none⟩ [] 0 7
    ⟨⟨by simp, by simp, by simp, by simp, rfl, rfl⟩, rfl⟩ (by decide)
